import Mathlib

/-
Verification of the SanitizeV core logic (src/logic.py, src/cache_scheduler.py,
src/profiles.py) against its natural-language specification.

The filesystem is modelled as a flat finite association list from absolute path
strings to opaque content tags (Nat).  A binding models an existing file or a
whole directory subtree: shutil.move, shutil.rmtree, shutil.copy2 and
os.makedirs act on whole subtrees, so one binding per moved object suffices.
os.path.abspath is an OS call outside the repository; it is modelled as the
identity on already-canonical absolute paths.  datetime parsing/formatting is
likewise an external stdlib boundary: timestamps are modelled as integer
seconds, strptime as an abstract parameter, and a formatted now-string is
passed in where the code calls strftime.
-/

/-- Filesystem model: association list from path to opaque content tag. -/
abbrev FS := List (String × Nat)

/-- Application state model (the JSON dict handled by load_state/save_state). -/
abbrev AppState := List (String × String)

/-- Association-list lookup by string key (first binding wins). -/
def alookup {α : Type} : List (String × α) → String → Option α
  | [], _ => none
  | (q, v) :: rest, p => if q = p then some v else alookup rest p

/-- Remove every binding of a key. -/
def aerase {α : Type} (l : List (String × α)) (p : String) : List (String × α) :=
  l.filter fun e => !(e.1 == p)

/-- Bind a key to a value, replacing any previous binding. -/
def aset {α : Type} (l : List (String × α)) (p : String) (v : α) : List (String × α) :=
  (p, v) :: aerase l p

/-- os.path.exists in the flat model. -/
def ahas {α : Type} (l : List (String × α)) (p : String) : Bool :=
  (alookup l p).isSome

/-- os.path.join for one component. -/
def pjoin (a b : String) : String := a ++ "/" ++ b

/-- os.path.abspath, modelled as the identity on canonical absolute paths. -/
def abspath (p : String) : String := p

theorem alookup_aerase_self {α : Type} (l : List (String × α)) (p : String) :
    alookup (aerase l p) p = none := by
  induction l with
  | nil => rfl
  | cons e rest ih =>
    simp only [aerase] at ih ⊢
    rcases e with ⟨r, v⟩
    by_cases hr : r = p
    · simpa [List.filter_cons, hr] using ih
    · simpa [List.filter_cons, hr, alookup] using ih

theorem alookup_aerase_of_ne {α : Type} (l : List (String × α)) {p q : String}
    (h : q ≠ p) : alookup (aerase l p) q = alookup l q := by
  induction l with
  | nil => rfl
  | cons e rest ih =>
    simp only [aerase] at ih ⊢
    rcases e with ⟨r, v⟩
    have hpq : p ≠ q := fun hh => h hh.symm
    by_cases hr : r = p
    · simpa [List.filter_cons, hr, alookup, hpq] using ih
    · by_cases hq : r = q
      · simp [List.filter_cons, hr, alookup, hq, h]
      · simpa [List.filter_cons, hr, alookup, hq, h] using ih

theorem alookup_aset_self {α : Type} (l : List (String × α)) (p : String) (v : α) :
    alookup (aset l p v) p = some v := by
  simp [aset, alookup]

theorem alookup_aset_of_ne {α : Type} (l : List (String × α)) {p q : String} (v : α)
    (h : q ≠ p) : alookup (aset l p v) q = alookup l q := by
  simp [aset, alookup, Ne.symm h]
  exact alookup_aerase_of_ne l h

theorem ahas_aset_self {α : Type} (l : List (String × α)) (p : String) (v : α) :
    ahas (aset l p v) p = true := by
  simp [ahas, alookup_aset_self]

theorem ahas_aset_of_ne {α : Type} (l : List (String × α)) {p q : String} (v : α)
    (h : q ≠ p) : ahas (aset l p v) q = ahas l q := by
  simp [ahas, alookup_aset_of_ne l v h]

theorem ahas_aerase_self {α : Type} (l : List (String × α)) (p : String) :
    ahas (aerase l p) p = false := by
  simp [ahas, alookup_aerase_self]

theorem ahas_aerase_of_ne {α : Type} (l : List (String × α)) {p q : String}
    (h : q ≠ p) : ahas (aerase l p) q = ahas l q := by
  simp [ahas, alookup_aerase_of_ne l h]

theorem pjoin_ne_of_length_ne (a : String) {b c : String}
    (h : b.length ≠ c.length) : pjoin a b ≠ pjoin a c := by
  intro he
  apply h
  have hl := congrArg String.length he
  simpa [pjoin, String.length_append] using hl

/-! ## clear_cache_logic (src/logic.py lines 39-74) -/

/-- The fixed cache targets under data (logic.py line 50). -/
def cacheTargets : List String := ["cache", "server-cache", "server-cache-priv"]

/-- The for-loop over targets in clear_cache_logic (logic.py lines 52-61).
For each target: if present, log and delete it, treating an OSError from
shutil.rmtree (modelled by the rmfail oracle) as non-fatal; if absent, log
that it is already clean.  Returns the final filesystem and the log. -/
def clearTargets (data_dir : String) (rmfail : String → Bool) :
    List String → FS → List String → FS × List String
  | [], fs, log => (fs, log)
  | t :: rest, fs, log =>
    let target_path := pjoin data_dir t
    if ahas fs target_path then
      let log2 := log ++ ["Deleting " ++ target_path ++ "..."]
      if rmfail target_path then
        clearTargets data_dir rmfail rest fs (log2 ++ ["Failed to delete " ++ t])
      else
        clearTargets data_dir rmfail rest (aerase fs target_path) log2
    else
      clearTargets data_dir rmfail rest fs (log ++ [t ++ " not found (already clean)."])

/-- clear_cache_logic (logic.py lines 39-74): delete the cache folders under
source_dir/data; if the data directory is absent, fail and return (false, none);
otherwise sweep the targets, record now_str under the last_cache_clear state
key and return (true, now_str).  Result: (success, timestamp, fs, state, log). -/
def clear_cache_logic (source_dir : String) (fs : FS) (st : AppState)
    (now_str : String) (rmfail : String → Bool) :
    Bool × Option String × FS × AppState × List String :=
  let data_dir := pjoin source_dir "data"
  if !(ahas fs data_dir) then
    (false, none, fs, st, ["Error: Data directory not found at " ++ data_dir])
  else
    let r := clearTargets data_dir rmfail cacheTargets fs []
    let st2 := aset st "last_cache_clear" now_str
    (true, some now_str, r.1, st2, r.2 ++ ["Cache cleaning process finished."])

/-! ## cache_scheduler (src/cache_scheduler.py) -/

/-- The cache_settings.json record (cache_scheduler.py lines 25-30); a field is
none when the key is absent from the dict, mirroring dict.get defaulting. -/
structure CacheSettings where
  auto_clear_enabled : Option Bool
  auto_clear_on_startup : Option Bool
  auto_clear_days : Option Int
  last_auto_clear : Option String
deriving DecidableEq

/-- should_auto_clear (cache_scheduler.py lines 43-67).  Timestamps are integer
seconds; strptime is the abstract stdlib parser; the Python expression
(datetime.now() - last_clear_date).days is floor division of the signed second
difference by 86400, i.e. Int.fdiv.  An unparseable last_auto_clear string
(ValueError) yields true. -/
def should_auto_clear (settings : CacheSettings) (now : Int)
    (strptime : String → Option Int) : Bool :=
  if !(settings.auto_clear_enabled.getD false) then false
  else
    match settings.last_auto_clear with
    | none => true
    | some last_clear =>
      match strptime last_clear with
      | none => true
      | some last_clear_date =>
        let days_since := Int.fdiv (now - last_clear_date) 86400
        decide (days_since ≥ settings.auto_clear_days.getD 7)

/-- check_and_auto_clear (cache_scheduler.py lines 70-103).  The startup branch
is gated only on auto_clear_on_startup; the scheduled branch consults
should_auto_clear.  On a successful clear the returned timestamp is written to
last_auto_clear and the settings are persisted.  Result:
(cleared, persisted settings, fs, state, log). -/
def check_and_auto_clear (source_dir : String) (settings : CacheSettings)
    (fs : FS) (st : AppState) (now : Int) (now_str : String)
    (strptime : String → Option Int) (rmfail : String → Bool) :
    Bool × CacheSettings × FS × AppState × List String :=
  if settings.auto_clear_on_startup.getD false then
    match clear_cache_logic source_dir fs st now_str rmfail with
    | (success, timestamp, fs1, st1, log1) =>
      if success then
        (true, { settings with last_auto_clear := timestamp }, fs1, st1, log1)
      else
        (false, settings, fs1, st1, log1)
  else if should_auto_clear settings now strptime then
    match clear_cache_logic source_dir fs st now_str rmfail with
    | (success, timestamp, fs1, st1, log1) =>
      if success then
        (true, { settings with last_auto_clear := timestamp }, fs1, st1,
          "Auto-clearing cache based on schedule..." :: log1)
      else
        (false, settings, fs1, st1,
          "Auto-clearing cache based on schedule..." :: log1)
  else
    (false, settings, fs, st, [])

/-- update_cache_settings (cache_scheduler.py lines 106-121): overwrite the
three settings fields, clamping auto_clear_days to a minimum of 1. -/
def update_cache_settings (settings : CacheSettings)
    (auto_clear_enabled auto_clear_on_startup : Bool)
    (auto_clear_days : Int) : CacheSettings :=
  { settings with
    auto_clear_enabled := some auto_clear_enabled
    auto_clear_on_startup := some auto_clear_on_startup
    auto_clear_days := some (max 1 auto_clear_days) }

/-! ## Lemmas about the cache sweep -/

theorem clearTargets_fst_lookup (data_dir : String) (rmfail : String → Bool)
    (ts : List String) (fs : FS) (log : List String) (p : String) :
    alookup (clearTargets data_dir rmfail ts fs log).1 p =
      if (ts.any fun t => pjoin data_dir t == p) && !(rmfail p) then none
      else alookup fs p := by
  induction ts generalizing fs log with
  | nil => simp [clearTargets]
  | cons t rest ih =>
    simp only [clearTargets]
    by_cases hpt : pjoin data_dir t = p
    · subst hpt
      by_cases hrm : rmfail (pjoin data_dir t) = true
      · by_cases hfs : ahas fs (pjoin data_dir t) = true
        · simp [hfs, hrm, ih]
        · simp [Bool.not_eq_true] at hfs
          simp [hfs, hrm, ih]
      · simp [Bool.not_eq_true] at hrm
        by_cases hfs : ahas fs (pjoin data_dir t) = true
        · simp [hfs, hrm, ih, alookup_aerase_self]
        · simp [Bool.not_eq_true] at hfs
          have hnone : alookup fs (pjoin data_dir t) = none := by
            cases hal : alookup fs (pjoin data_dir t) with
            | none => rfl
            | some v => simp [ahas, hal] at hfs
          simp [hfs, hrm, ih, hnone]
    · by_cases hfs : ahas fs (pjoin data_dir t) = true
      · by_cases hrm : rmfail (pjoin data_dir t) = true
        · simp [hfs, hrm, ih, hpt]
        · simp [Bool.not_eq_true] at hrm
          simp [hfs, hrm, ih, hpt, alookup_aerase_of_ne fs (fun hh => hpt hh.symm)]
      · simp [Bool.not_eq_true] at hfs
        simp [hfs, ih, hpt]

/-- Claim C4: clear_cache_logic returns (false, none) and mutates nothing when
the data directory is absent; otherwise it processes every fixed target,
treating per-target deletion failures and absent targets as non-fatal, records
now_str under the last_cache_clear state key and returns (true, now_str) even
when some deletions failed. -/
theorem C4_clear_cache_behaviour (source_dir : String) (fs : FS) (st : AppState)
    (now_str : String) (rmfail : String → Bool) :
    (ahas fs (pjoin source_dir "data") = false →
      clear_cache_logic source_dir fs st now_str rmfail
        = (false, none, fs, st,
            ["Error: Data directory not found at " ++ pjoin source_dir "data"])) ∧
    (ahas fs (pjoin source_dir "data") = true →
      (clear_cache_logic source_dir fs st now_str rmfail).1 = true ∧
      (clear_cache_logic source_dir fs st now_str rmfail).2.1 = some now_str ∧
      alookup (clear_cache_logic source_dir fs st now_str rmfail).2.2.2.1
        "last_cache_clear" = some now_str ∧
      ∀ t ∈ cacheTargets,
        alookup (clear_cache_logic source_dir fs st now_str rmfail).2.2.1
            (pjoin (pjoin source_dir "data") t) =
          if rmfail (pjoin (pjoin source_dir "data") t) = true then
            alookup fs (pjoin (pjoin source_dir "data") t)
          else none) := by
  constructor
  · intro h
    simp [clear_cache_logic, h]
  · intro h
    refine ⟨by simp [clear_cache_logic, h], by simp [clear_cache_logic, h], ?_, ?_⟩
    · simp [clear_cache_logic, h, alookup_aset_self]
    · intro t ht
      have hany : (cacheTargets.any fun u =>
          pjoin (pjoin source_dir "data") u == pjoin (pjoin source_dir "data") t) = true := by
        rw [List.any_eq_true]
        exact ⟨t, ht, by simp⟩
      by_cases hrm : rmfail (pjoin (pjoin source_dir "data") t) = true
      · simp [clear_cache_logic, h, clearTargets_fst_lookup, hany, hrm]
      · simp [Bool.not_eq_true] at hrm
        simp [clear_cache_logic, h, clearTargets_fst_lookup, hany, hrm]

theorem C4_witness :
    clear_cache_logic "/r" [] [] "2026-01-01 00:00:00" (fun _ => false)
      = (false, none, [], [],
          ["Error: Data directory not found at " ++ pjoin "/r" "data"]) ∧
    (clear_cache_logic "/r" [(pjoin "/r" "data", 0)] [] "2026-01-01 00:00:00"
      (fun _ => false)).1 = true := by
  constructor
  · exact (C4_clear_cache_behaviour "/r" [] [] "2026-01-01 00:00:00"
      (fun _ => false)).1 (by decide)
  · exact ((C4_clear_cache_behaviour "/r" [(pjoin "/r" "data", 0)] []
      "2026-01-01 00:00:00" (fun _ => false)).2 (by decide)).1

/-- Claim C6: with auto-clear enabled, should_auto_clear is true when
last_auto_clear is absent, true when it is present but unparseable, and
otherwise true exactly when the whole days elapsed since it (floor of the
second difference over 86400) reach the configured interval. -/
theorem C6_should_auto_clear_decision (settings : CacheSettings) (now : Int)
    (strptime : String → Option Int)
    (hen : settings.auto_clear_enabled.getD false = true) :
    should_auto_clear settings now strptime =
      match settings.last_auto_clear with
      | none => true
      | some last_clear =>
        match strptime last_clear with
        | none => true
        | some t =>
          decide (Int.fdiv (now - t) 86400 ≥ settings.auto_clear_days.getD 7) := by
  simp [should_auto_clear, hen]

theorem C6_witness :
    should_auto_clear
      { auto_clear_enabled := some true, auto_clear_on_startup := none,
        auto_clear_days := some 7, last_auto_clear := some "corrupt" }
      0 (fun _ => none) = true := by
  have h := C6_should_auto_clear_decision
    { auto_clear_enabled := some true, auto_clear_on_startup := none,
      auto_clear_days := some 7, last_auto_clear := some "corrupt" }
    0 (fun _ => none) (by decide)
  simpa using h

/-- Claim C3 fails on the code: with auto_clear_enabled = false but
auto_clear_on_startup = true, check_and_auto_clear still runs a clear (the
startup branch is not gated on enabled): it returns true, deletes the cache
target and rewrites the persisted settings. -/
theorem C3_counterexample :
    (check_and_auto_clear "/r"
      { auto_clear_enabled := some false, auto_clear_on_startup := some true,
        auto_clear_days := some 7, last_auto_clear := none }
      [(pjoin "/r" "data", 0), (pjoin (pjoin "/r" "data") "cache", 1)]
      [] 0 "2026-01-01 00:00:00" (fun _ => none) (fun _ => false)).1 = true ∧
    (check_and_auto_clear "/r"
      { auto_clear_enabled := some false, auto_clear_on_startup := some true,
        auto_clear_days := some 7, last_auto_clear := none }
      [(pjoin "/r" "data", 0), (pjoin (pjoin "/r" "data") "cache", 1)]
      [] 0 "2026-01-01 00:00:00" (fun _ => none) (fun _ => false)).2.1 ≠
      { auto_clear_enabled := some false, auto_clear_on_startup := some true,
        auto_clear_days := some 7, last_auto_clear := none } ∧
    ahas (check_and_auto_clear "/r"
      { auto_clear_enabled := some false, auto_clear_on_startup := some true,
        auto_clear_days := some 7, last_auto_clear := none }
      [(pjoin "/r" "data", 0), (pjoin (pjoin "/r" "data") "cache", 1)]
      [] 0 "2026-01-01 00:00:00" (fun _ => none) (fun _ => false)).2.2.1
      (pjoin (pjoin "/r" "data") "cache") = false := by
  decide

/-- Claim C3 (amended): with enabled = false the pure decision
should_auto_clear is false regardless of all other fields, and
check_and_auto_clear performs no clear and leaves the settings, filesystem and
state unchanged provided runOnStartup is also false; the startup branch of
check_and_auto_clear is gated only on runOnStartup, not on enabled, so
enabled = false alone does not prevent a startup clear. -/
theorem C3_disabled_no_clear (settings : CacheSettings) (source_dir : String)
    (fs : FS) (st : AppState) (now : Int) (now_str : String)
    (strptime : String → Option Int) (rmfail : String → Bool)
    (hen : settings.auto_clear_enabled.getD false = false) :
    should_auto_clear settings now strptime = false ∧
    (settings.auto_clear_on_startup.getD false = false →
      check_and_auto_clear source_dir settings fs st now now_str strptime rmfail
        = (false, settings, fs, st, [])) := by
  constructor
  · simp [should_auto_clear, hen]
  · intro hst
    simp [check_and_auto_clear, hst, should_auto_clear, hen]

theorem C3_witness :
    should_auto_clear
      { auto_clear_enabled := some false, auto_clear_on_startup := some true,
        auto_clear_days := some 7, last_auto_clear := none } 0 (fun _ => none)
      = false ∧
    check_and_auto_clear "/r"
      { auto_clear_enabled := none, auto_clear_on_startup := none,
        auto_clear_days := some 7, last_auto_clear := none }
      [(pjoin "/r" "data", 0)] [] 0 "2026-01-01 00:00:00"
      (fun _ => none) (fun _ => false)
      = (false,
          { auto_clear_enabled := none, auto_clear_on_startup := none,
            auto_clear_days := some 7, last_auto_clear := none },
          [(pjoin "/r" "data", 0)], [], []) := by
  constructor
  · exact (C3_disabled_no_clear
      { auto_clear_enabled := some false, auto_clear_on_startup := some true,
        auto_clear_days := some 7, last_auto_clear := none }
      "/r" [] [] 0 "x" (fun _ => none) (fun _ => false) (by decide)).1
  · exact (C3_disabled_no_clear
      { auto_clear_enabled := none, auto_clear_on_startup := none,
        auto_clear_days := some 7, last_auto_clear := none }
      "/r" [(pjoin "/r" "data", 0)] [] 0 "2026-01-01 00:00:00"
      (fun _ => none) (fun _ => false) (by decide)).2 (by decide)

/-- Claim C9: update_cache_settings always stores an interval of at least one
day (it clamps with max 1), and check_and_auto_clear never changes the stored
interval, so every settings record written by these operations keeps
intervalDays at least 1 whenever the incoming record satisfied it. -/
theorem C9_interval_days_clamped (settings : CacheSettings) (e s : Bool)
    (d : Int) (source_dir : String) (fs : FS) (st : AppState) (now : Int)
    (now_str : String) (strptime : String → Option Int) (rmfail : String → Bool)
    (h : 1 ≤ settings.auto_clear_days.getD 7) :
    1 ≤ (update_cache_settings settings e s d).auto_clear_days.getD 7 ∧
    1 ≤ (check_and_auto_clear source_dir settings fs st now now_str strptime
          rmfail).2.1.auto_clear_days.getD 7 := by
  constructor
  · simp [update_cache_settings]
  · unfold check_and_auto_clear
    repeat' split
    all_goals simpa using h

theorem C9_witness :
    1 ≤ (update_cache_settings
          { auto_clear_enabled := none, auto_clear_on_startup := none,
            auto_clear_days := none, last_auto_clear := none }
          true false (-5)).auto_clear_days.getD 7 ∧
    1 ≤ (check_and_auto_clear "/r"
          { auto_clear_enabled := none, auto_clear_on_startup := none,
            auto_clear_days := none, last_auto_clear := none }
          [] [] 0 "2026-01-01 00:00:00" (fun _ => none)
          (fun _ => false)).2.1.auto_clear_days.getD 7 :=
  C9_interval_days_clamped
    { auto_clear_enabled := none, auto_clear_on_startup := none,
      auto_clear_days := none, last_auto_clear := none }
    true false (-5) "/r" [] [] 0 "2026-01-01 00:00:00" (fun _ => none)
    (fun _ => false) (by decide)

/-! ## move_files_logic / revert_files_logic (src/logic.py lines 77-288) -/

/-- Index of the last occurrence of a character in a character list
(Python str.rfind, with none for absent). -/
def rfindChar : List Char → Char → Option Nat
  | [], _ => none
  | a :: rest, c =>
    match rfindChar rest c with
    | some i => some (i + 1)
    | none => if a = c then some 0 else none

/-- os.path.splitext on posix paths: split at the last dot of the final
component, unless every character of the final component before that dot is
itself a dot (so dotfiles like .bashrc keep an empty extension). -/
def splitext (s : String) : String × String :=
  let cs := s.data
  let sepIdx : Int := match rfindChar cs (Char.ofNat 47) with
    | none => -1
    | some i => (i : Int)
  let dotIdx : Int := match rfindChar cs (Char.ofNat 46) with
    | none => -1
    | some i => (i : Int)
  if dotIdx > sepIdx then
    let fnameStart := (sepIdx + 1).toNat
    let dotN := dotIdx.toNat
    if (List.range (dotN - fnameStart)).any
        (fun k => !(cs.get? (fnameStart + k) == some (Char.ofNat 46))) then
      (String.mk (cs.take dotN), String.mk (cs.drop dotN))
    else (s, "")
  else (s, "")

/-- Python str.strip with no argument: drop leading and trailing whitespace. -/
def stripChars (cs : List Char) : List Char :=
  ((cs.dropWhile Char.isWhitespace).reverse.dropWhile Char.isWhitespace).reverse

/-- Label sanitization (logic.py lines 164-167): keep only alphanumeric
characters, space, hyphen and underscore, then strip surrounding whitespace.
Python str.isalnum is modelled on the ASCII range by Char.isAlphanum. -/
def sanitizeLabel (user_label : String) : String :=
  String.mk (stripChars (user_label.data.filter
    (fun c => c.isAlphanum || c == ' ' || c == '-' || c == '_')))

/-- The label chosen in logic.py lines 157-167.  prompt_callback is none when
no callback was supplied; some none models a cancelled prompt (Python None)
and some (some u) a returned string u, with Python truthiness making both
None and the empty string keep the default label. -/
def promptLabel (prompt_callback : Option (Option String)) : String :=
  match prompt_callback with
  | none => "backup"
  | some none => "backup"
  | some (some u) => if u = "" then "backup" else sanitizeLabel u

/-- The labelled backup filename (logic.py lines 171-172). -/
def labeledXmlFilename (xml_filename label : String) : String :=
  (splitext xml_filename).1 ++ "_" ++ label ++ (splitext xml_filename).2

/-- The log line for one move (the f-string at logic.py lines 142, 151, 262
and 271, with verb Moving or Restoring). -/
def moveMsg (verb src dst : String) : String :=
  verb ++ " " ++ src ++ " -> " ++ dst ++ "..."

/-- The raise message of shutil.move on a missing source. -/
def missingMsg (src : String) : String :=
  "Error: [Errno 2] No such file or directory: " ++ src

/-- The rmtree-if-present-then-shutil.move pattern shared by the four folder
move blocks (logic.py lines 137-143, 146-152, 257-263, 266-272): if dst
exists, log warn and delete it, then move src to dst.  A missing src makes
shutil.move raise; the enclosing except turns that into a logged Error and a
false return, modelled by the error branch carrying the state at the raise. -/
def moveEntry (verb warn src dst : String) (fs : FS) (log : List String) :
    Except (FS × List String) (FS × List String) :=
  let fs2 := if ahas fs dst then aerase fs dst else fs
  let log2 := (if ahas fs dst then log ++ [warn] else log) ++ [moveMsg verb src dst]
  match alookup fs2 src with
  | none => Except.error (fs2, log2 ++ [missingMsg src])
  | some v => Except.ok (aset (aerase fs2 src) dst v, log2)

/-- move_files_logic (logic.py lines 77-194), the forward Sanitize operation
over the flat filesystem model.  Raises inside the try block are modelled at
their source position as a logged Error message plus a false return, which is
exactly what the enclosing except does.  Result: (success, fs, log). -/
def move_files_logic (source_dir folder1_name folder2_name xml_source_dir
    xml_filename replacement_xml_path destination_dir : String)
    (include_mods include_plugins include_xml : Bool)
    (prompt_callback : Option (Option String))
    (fs : FS) : Bool × FS × List String :=
  let source_dirA := abspath source_dir
  let destination_dirA := abspath destination_dir
  let folder1_src := pjoin source_dirA folder1_name
  let folder2_src := pjoin source_dirA folder2_name
  let folder1_dest := pjoin destination_dirA folder1_name
  let folder2_dest := pjoin destination_dirA folder2_name
  let xml_source_dirA := abspath xml_source_dir
  let replacement_xmlA := abspath replacement_xml_path
  let xml_src := pjoin xml_source_dirA xml_filename
  if include_xml && (xml_source_dirA == destination_dirA) then
    (false, fs,
      ["Error: XML source directory and Destination directory are the same."])
  else if include_xml && !(ahas fs xml_source_dirA) then
    (false, fs, ["Error: XML source dir not found: " ++ xml_source_dirA])
  else if include_xml && !(ahas fs xml_src) then
    (false, fs, ["Error: XML file not found in Source: " ++ xml_src])
  else if include_xml && !(ahas fs replacement_xmlA) then
    (false, fs, ["Error: Replacement XML not found: " ++ replacement_xmlA])
  else if (include_mods || include_plugins) &&
      (source_dirA == destination_dirA) then
    (false, fs,
      ["Error: Source folder directory and Destination directory are the same."])
  else if (include_mods || include_plugins) && !(ahas fs source_dirA) then
    (false, fs, ["Error: Source folder dir not found: " ++ source_dirA])
  else if include_mods && !(ahas fs folder1_src) then
    (false, fs, ["Error: Folder 1 (mods) not found in Source: " ++ folder1_src])
  else if include_plugins && !(ahas fs folder2_src) then
    (false, fs, ["Error: Folder 2 (plugins) not found in Source: " ++ folder2_src])
  else
    let fsd := if !(ahas fs destination_dirA) then aset fs destination_dirA 0 else fs
    let logd := if !(ahas fs destination_dirA) then
      ["Destination directory does not exist. Creating: " ++ destination_dirA] else []
    let r1 :=
      if include_mods then
        moveEntry "Moving"
          ("Warning: " ++ folder1_dest ++ " already exists. Overwriting...")
          folder1_src folder1_dest fsd logd
      else Except.ok (fsd, logd)
    match r1 with
    | Except.error e => (false, e.1, e.2)
    | Except.ok s1 =>
      let r2 :=
        if include_plugins then
          moveEntry "Moving"
            ("Warning: " ++ folder2_dest ++ " already exists. Overwriting...")
            folder2_src folder2_dest s1.1 s1.2
        else Except.ok s1
      match r2 with
      | Except.error e => (false, e.1, e.2)
      | Except.ok s2 =>
        if include_xml then
          let label := promptLabel prompt_callback
          let labeled_xml_dest :=
            pjoin destination_dirA (labeledXmlFilename xml_filename label)
          let fsl := if ahas s2.1 labeled_xml_dest then
            aerase s2.1 labeled_xml_dest else s2.1
          let log4 := (if ahas s2.1 labeled_xml_dest then
              s2.2 ++ ["Warning: " ++ labeled_xml_dest ++
                " already exists. Overwriting..."]
            else s2.2) ++ ["Moving " ++ xml_src ++ " -> " ++
            labeled_xml_dest ++ "..."]
          match alookup fsl xml_src with
          | none =>
            (false, fsl,
              log4 ++ ["Error: [Errno 2] No such file or directory: " ++ xml_src])
          | some v =>
            let fs4 := aset (aerase fsl xml_src) labeled_xml_dest v
            let log5 := log4 ++ ["Copying replacement XML " ++ replacement_xmlA ++
              " -> " ++ xml_src ++ "..."]
            match alookup fs4 replacement_xmlA with
            | none =>
              (false, fs4,
                log5 ++ ["Error: [Errno 2] No such file or directory: " ++
                  replacement_xmlA])
            | some w =>
              (true, aset fs4 xml_src w,
                log5 ++ ["Sanitize (Move) Operation completed successfully!"])
        else
          (true, s2.1,
            s2.2 ++ ["Sanitize (Move) Operation completed successfully!"])

/-- The backup file that Restore will move back (logic.py lines 220-224): the
explicitly provided path, or destRoot/xml_filename as the fallback. -/
def restorePath (destination_dir xml_filename : String)
    (restore_xml_path : Option String) : String :=
  match restore_xml_path with
  | some q => q
  | none => pjoin destination_dir xml_filename

/-- revert_files_logic (logic.py lines 197-288), the reverse Restore operation
over the flat filesystem model.  Note the two silent return False paths
(lines 226-227 and 235-236) and the makedirs of a missing xml source
directory (lines 231-232) that happens before the remaining validation.
Result: (success, fs, log). -/
def revert_files_logic (source_dir folder1_name folder2_name xml_source_dir
    xml_filename destination_dir : String)
    (include_mods include_plugins include_xml : Bool)
    (restore_xml_path : Option String)
    (fs : FS) : Bool × FS × List String :=
  let source_dirA := abspath source_dir
  let destination_dirA := abspath destination_dir
  let folder1_in_dest := pjoin destination_dirA folder1_name
  let folder2_in_dest := pjoin destination_dirA folder2_name
  let folder1_in_src := pjoin source_dirA folder1_name
  let folder2_in_src := pjoin source_dirA folder2_name
  let xml_source_dirA := abspath xml_source_dir
  let xml_in_src := pjoin xml_source_dirA xml_filename
  let xml_in_dest := restorePath destination_dirA xml_filename restore_xml_path
  if include_xml && (xml_source_dirA == destination_dirA) then
    (false, fs, [])
  else if include_xml && !(ahas fs xml_in_dest) then
    (false, fs, ["Error: Backup XML file not found: " ++ xml_in_dest])
  else
    let s0 : FS :=
      if include_xml && !(ahas fs xml_source_dirA) then
        aset fs xml_source_dirA 0
      else fs
    if source_dirA == destination_dirA then
      (false, s0, [])
    else if !(ahas s0 destination_dirA) then
      (false, s0, ["Error: Destination dir not found: " ++ destination_dirA])
    else if include_mods && !(ahas s0 folder1_in_dest) then
      (false, s0,
        ["Error: Folder 1 (mods) not found in Destination: " ++ folder1_in_dest])
    else if include_plugins && !(ahas s0 folder2_in_dest) then
      (false, s0,
        ["Error: Folder 2 (plugins) not found in Destination: " ++ folder2_in_dest])
    else
      let s1 : FS :=
        if (include_mods || include_plugins) && !(ahas s0 source_dirA) then
          aset s0 source_dirA 0
        else s0
      let r1 :=
        if include_mods then
          moveEntry "Restoring"
            ("Warning: " ++ folder1_in_src ++
              " already exists in Source. Overwriting...")
            folder1_in_dest folder1_in_src s1 []
        else Except.ok (s1, [])
      match r1 with
      | Except.error e => (false, e.1, e.2)
      | Except.ok s2 =>
        let r2 :=
          if include_plugins then
            moveEntry "Restoring"
              ("Warning: " ++ folder2_in_src ++
                " already exists in Source. Overwriting...")
              folder2_in_dest folder2_in_src s2.1 s2.2
          else Except.ok s2
        match r2 with
        | Except.error e => (false, e.1, e.2)
        | Except.ok s3 =>
          if include_xml then
            let fsx := if ahas s3.1 xml_in_src then aerase s3.1 xml_in_src else s3.1
            let log5 := (if ahas s3.1 xml_in_src then
                s3.2 ++ ["Warning: Overwriting current XML in Source: " ++
                  xml_in_src ++ "..."]
              else s3.2) ++ ["Restoring " ++ xml_in_dest ++ " -> " ++
              xml_in_src ++ "..."]
            match alookup fsx xml_in_dest with
            | none =>
              (false, fsx,
                log5 ++ ["Error: [Errno 2] No such file or directory: " ++
                  xml_in_dest])
            | some v =>
              (true, aset (aerase fsx xml_in_dest) xml_in_src v,
                log5 ++ ["Restore/Back Operation completed successfully!"])
          else
            (true, s3.1, s3.2 ++ ["Restore/Back Operation completed successfully!"])

/-! ## Further association-list lemmas -/

theorem aerase_comm {α : Type} (l : List (String × α)) (p q : String) :
    aerase (aerase l p) q = aerase (aerase l q) p := by
  simp only [aerase, List.filter_filter]
  congr 1
  funext e
  exact Bool.and_comm _ _

theorem aerase_aerase_self {α : Type} (l : List (String × α)) (p : String) :
    aerase (aerase l p) p = aerase l p := by
  simp only [aerase, List.filter_filter]
  congr 1
  funext e
  exact Bool.and_self _

theorem aset_aerase_absorb {α : Type} (l : List (String × α)) (p : String) (v : α) :
    aset (aerase l p) p v = aset l p v := by
  simp [aset, aerase_aerase_self]

theorem alookup_ite {α : Type} (c : Prop) [Decidable c]
    (a b : List (String × α)) (p : String) :
    alookup (if c then a else b) p = if c then alookup a p else alookup b p := by
  split <;> rfl

theorem ahas_ite {α : Type} (c : Prop) [Decidable c]
    (a b : List (String × α)) (p : String) :
    ahas (if c then a else b) p = if c then ahas a p else ahas b p := by
  split <;> rfl

theorem append_singleton_ne_nil {α : Type} (l : List α) (a : α) :
    l ++ [a] ≠ [] := by
  simp

/-- When the source of the move exists (and differs from the destination), the
moveEntry pattern succeeds and its effect is erase-src-then-bind-dst,
whether or not the destination had to be overwritten first. -/
theorem moveEntry_ok (verb warn src dst : String) (fs : FS) (log : List String)
    (v : Nat) (hne : src ≠ dst) (hv : alookup fs src = some v) :
    moveEntry verb warn src dst fs log =
      Except.ok (aset (aerase fs src) dst v,
        (log ++ (if ahas fs dst then [warn] else [])) ++ [moveMsg verb src dst]) := by
  by_cases hd : ahas fs dst = true
  · have hcol : aset (aerase (aerase fs dst) src) dst v = aset (aerase fs src) dst v := by
      rw [aerase_comm, aset_aerase_absorb]
    simp [moveEntry, hd, alookup_aerase_of_ne fs hne, hv, hcol]
  · simp [moveEntry, hd, hv]

/-- Claim C10: Restore with xml flagged but no explicit backup path does not
fail for that reason: it behaves exactly as if destRoot/xml_filename had been
passed as the backup path (so it falls back to that file), and its backup
pre-check raises NotFound, with the filesystem untouched, exactly when that
default file is absent. -/
theorem C10_restore_default_backup (source_dir folder1_name folder2_name
    xml_source_dir xml_filename destination_dir : String)
    (include_mods include_plugins : Bool) (fs : FS)
    (hxd : abspath xml_source_dir ≠ abspath destination_dir)
    (habs : ahas fs (pjoin (abspath destination_dir) xml_filename) = false) :
    (∀ fs2 : FS,
      revert_files_logic source_dir folder1_name folder2_name xml_source_dir
        xml_filename destination_dir include_mods include_plugins true none fs2 =
      revert_files_logic source_dir folder1_name folder2_name xml_source_dir
        xml_filename destination_dir include_mods include_plugins true
        (some (pjoin (abspath destination_dir) xml_filename)) fs2) ∧
    revert_files_logic source_dir folder1_name folder2_name xml_source_dir
        xml_filename destination_dir include_mods include_plugins true none fs =
      (false, fs, ["Error: Backup XML file not found: " ++
        pjoin (abspath destination_dir) xml_filename]) := by
  constructor
  · intro fs2
    rfl
  · simp [revert_files_logic, restorePath, habs, hxd]

theorem C10_witness :
    revert_files_logic "/s" "mods" "plugins" "/x" "settings.xml" "/d"
        true true true none [] =
      (false, [], ["Error: Backup XML file not found: " ++
        pjoin (abspath "/d") "settings.xml"]) :=
  (C10_restore_default_backup "/s" "mods" "plugins" "/x" "settings.xml" "/d"
    true true [] (by decide) (by decide)).2

/-- The label exactly as claim C8 words it: the user-supplied string with
every character not in [alphanumeric, space, hyphen, underscore] removed and
surrounding whitespace stripped; an empty or cancelled prompt yields the
label "backup". -/
def claimLabel (prompt_callback : Option (Option String)) : String :=
  match prompt_callback with
  | some (some u) =>
    if u = "" then "backup"
    else String.mk (stripChars (u.data.filter
      (fun c => c.isAlphanum || c == ' ' || c == '-' || c == '_')))
  | _ => "backup"


/-! ## Success-path normal forms for the two file-state operations -/

/-- Lookup with a junk default; equals the bound value on every path where the
operation succeeded (the move source was present). -/
def aget (l : FS) (p : String) : Nat := (alookup l p).getD 0

/-- State after the destination-creation step of Sanitize (logic.py 131-134). -/
def sanStage0 (destination_dir : String) (fs0 : FS) : FS :=
  if !(ahas fs0 destination_dir) then aset fs0 destination_dir 0 else fs0

/-- State after the mods move of Sanitize (logic.py 136-143). -/
def sanStage1 (source_dir folder1_name destination_dir : String)
    (include_mods : Bool) (fs0 : FS) : FS :=
  let s0 := sanStage0 destination_dir fs0
  if include_mods then
    aset (aerase s0 (pjoin source_dir folder1_name))
      (pjoin destination_dir folder1_name) (aget s0 (pjoin source_dir folder1_name))
  else s0

/-- State after the plugins move of Sanitize (logic.py 145-152). -/
def sanStage2 (source_dir folder1_name folder2_name destination_dir : String)
    (include_mods include_plugins : Bool) (fs0 : FS) : FS :=
  let s1 := sanStage1 source_dir folder1_name destination_dir include_mods fs0
  if include_plugins then
    aset (aerase s1 (pjoin source_dir folder2_name))
      (pjoin destination_dir folder2_name) (aget s1 (pjoin source_dir folder2_name))
  else s1

/-- Final filesystem of a successful Sanitize (logic.py 131-190): folder moves
followed, when xml is flagged, by the labelled backup move and the replacement
copy. -/
def sanitizeEffect (source_dir folder1_name folder2_name xml_source_dir
    xml_filename replacement_xml_path destination_dir : String)
    (include_mods include_plugins include_xml : Bool) (label : String)
    (fs0 : FS) : FS :=
  let s2 := sanStage2 source_dir folder1_name folder2_name destination_dir
    include_mods include_plugins fs0
  if include_xml then
    let xml_src := pjoin xml_source_dir xml_filename
    let s3 := aset (aerase s2 xml_src)
      (pjoin destination_dir (labeledXmlFilename xml_filename label))
      (aget s2 xml_src)
    aset s3 xml_src (aget s3 replacement_xml_path)
  else s2

/-- State after the xml-source makedirs of Restore (logic.py 231-232). -/
def revStageX (xml_source_dir : String) (include_xml : Bool) (fs0 : FS) : FS :=
  if include_xml && !(ahas fs0 xml_source_dir) then
    aset fs0 xml_source_dir 0
  else fs0

/-- State after both pre-flight makedirs calls of Restore (logic.py 231-232
and 252-254). -/
def revStage0 (source_dir xml_source_dir : String)
    (include_mods include_plugins include_xml : Bool) (fs0 : FS) : FS :=
  let s0 := revStageX xml_source_dir include_xml fs0
  if (include_mods || include_plugins) && !(ahas s0 source_dir) then
    aset s0 source_dir 0
  else s0

/-- State after the mods restore of Restore (logic.py 256-263). -/
def revStage1 (source_dir folder1_name xml_source_dir destination_dir : String)
    (include_mods include_plugins include_xml : Bool) (fs0 : FS) : FS :=
  let s0 := revStage0 source_dir xml_source_dir
    include_mods include_plugins include_xml fs0
  if include_mods then
    aset (aerase s0 (pjoin destination_dir folder1_name))
      (pjoin source_dir folder1_name)
      (aget s0 (pjoin destination_dir folder1_name))
  else s0

/-- State after the plugins restore of Restore (logic.py 265-272). -/
def revStage2 (source_dir folder1_name folder2_name xml_source_dir
    destination_dir : String)
    (include_mods include_plugins include_xml : Bool) (fs0 : FS) : FS :=
  let s1 := revStage1 source_dir folder1_name xml_source_dir destination_dir
    include_mods include_plugins include_xml fs0
  if include_plugins then
    aset (aerase s1 (pjoin destination_dir folder2_name))
      (pjoin source_dir folder2_name)
      (aget s1 (pjoin destination_dir folder2_name))
  else s1

/-- Final filesystem of a successful Restore (logic.py 256-284). -/
def revertEffect (source_dir folder1_name folder2_name xml_source_dir
    xml_filename destination_dir : String)
    (include_mods include_plugins include_xml : Bool)
    (restore_xml_path : Option String) (fs0 : FS) : FS :=
  let s2 := revStage2 source_dir folder1_name folder2_name xml_source_dir
    destination_dir include_mods include_plugins include_xml fs0
  if include_xml then
    let xml_in_src := pjoin xml_source_dir xml_filename
    let xml_in_dest := restorePath destination_dir xml_filename restore_xml_path
    aset (aerase s2 xml_in_dest) xml_in_src (aget s2 xml_in_dest)
  else s2

/-- Validation steps of the pre-flight phases: a failing check returns a tuple
whose success flag is false, so an overall success forces the check's
condition to be false and the computation to continue past it. -/
theorem ite_success_step {c : Bool} {bad rest : Bool × FS × List String}
    {fs1 : FS} {log1 : List String} (hbad : bad.1 = false)
    (h : (if c = true then bad else rest) = (true, fs1, log1)) :
    c = false ∧ rest = (true, fs1, log1) := by
  cases c
  · exact ⟨rfl, by simpa using h⟩
  · rw [if_pos rfl] at h
    rw [h] at hbad
    simp at hbad

/-- A successful lookup after an optional overwrite deletion of the (distinct
or equal) destination was already successful before it. -/
theorem alookup_of_overwrite_some {l : FS} {src dst : String} {v : Nat}
    (h : alookup (if ahas l dst then aerase l dst else l) src = some v) :
    alookup l src = some v := by
  by_cases hc : ahas l dst = true
  · rw [if_pos hc] at h
    by_cases hsd : src = dst
    · rw [hsd, alookup_aerase_self] at h
      exact absurd h (by simp)
    · rwa [alookup_aerase_of_ne l hsd] at h
  · rw [if_neg hc] at h
    exact h

/-- The overwrite-then-move pattern collapses: deleting the destination first
changes nothing once the move rebinds it. -/
theorem aset_aerase_ite_collapse (c : Prop) [Decidable c] (l : FS)
    (src dst : String) (v : Nat) :
    aset (aerase (if c then aerase l dst else l) src) dst v
      = aset (aerase l src) dst v := by
  split
  · rw [aerase_comm, aset_aerase_absorb]
  · rfl

theorem aget_eq_of_alookup {l : FS} {p : String} {v : Nat}
    (h : alookup l p = some v) : aget l p = v := by
  simp [aget, h]

/-! ## Step lemmas for the move blocks -/

theorem pjoin_right_cancel {a b c : String} (h : pjoin a c = pjoin b c) :
    a = b := by
  have hd := congrArg String.data h
  simp [pjoin, String.data_append] at hd
  exact String.ext hd

theorem pjoin_ne_of_ne {a b : String} (c : String) (h : a ≠ b) :
    pjoin a c ≠ pjoin b c :=
  fun he => h (pjoin_right_cancel he)

theorem ahas_aset_mono {α : Type} (l : List (String × α)) (p q : String) (v : α)
    (h : ahas l p = true) : ahas (aset l q v) p = true := by
  by_cases hpq : p = q
  · rw [hpq]
    exact ahas_aset_self l q v
  · rw [ahas_aset_of_ne l v hpq]
    exact h

theorem alookup_aerase_none {α : Type} (l : List (String × α)) (p q : String)
    (h : alookup l p = none) : alookup (aerase l q) p = none := by
  by_cases hpq : p = q
  · rw [hpq]
    exact alookup_aerase_self l q
  · rw [alookup_aerase_of_ne l hpq]
    exact h

/-- The log emitted by the destination-creation step of Sanitize. -/
def sanLog0 (destination_dir : String) (fs0 : FS) : List String :=
  if !(ahas fs0 destination_dir) then
    ["Destination directory does not exist. Creating: " ++ destination_dir]
  else []

/-- The log after the mods move of Sanitize. -/
def sanLog1 (source_dir folder1_name destination_dir : String)
    (include_mods : Bool) (fs0 : FS) : List String :=
  if include_mods then
    (sanLog0 destination_dir fs0 ++
      (if ahas (sanStage0 destination_dir fs0) (pjoin destination_dir folder1_name) then
        ["Warning: " ++ pjoin destination_dir folder1_name ++
          " already exists. Overwriting..."]
      else [])) ++
    [moveMsg "Moving" (pjoin source_dir folder1_name)
      (pjoin destination_dir folder1_name)]
  else sanLog0 destination_dir fs0

/-- The log after the plugins move of Sanitize. -/
def sanLog2 (source_dir folder1_name folder2_name destination_dir : String)
    (include_mods include_plugins : Bool) (fs0 : FS) : List String :=
  if include_plugins then
    (sanLog1 source_dir folder1_name destination_dir include_mods fs0 ++
      (if ahas (sanStage1 source_dir folder1_name destination_dir include_mods fs0)
          (pjoin destination_dir folder2_name) then
        ["Warning: " ++ pjoin destination_dir folder2_name ++
          " already exists. Overwriting..."]
      else [])) ++
    [moveMsg "Moving" (pjoin source_dir folder2_name)
      (pjoin destination_dir folder2_name)]
  else sanLog1 source_dir folder1_name destination_dir include_mods fs0

/-- A moveEntry on a missing source fails with the raised error payload. -/
theorem moveEntry_fail (verb warn src dst : String) (fs : FS) (log : List String)
    (hsrc : ahas fs src = false) :
    moveEntry verb warn src dst fs log =
      Except.error (if ahas fs dst then aerase fs dst else fs,
        ((if ahas fs dst then log ++ [warn] else log) ++
          [moveMsg verb src dst]) ++ [missingMsg src]) := by
  have hnone : alookup fs src = none := by
    cases h : alookup fs src with
    | none => rfl
    | some v =>
      rw [ahas, h] at hsrc
      simp at hsrc
  have hnone2 : alookup (if ahas fs dst then aerase fs dst else fs) src = none := by
    split
    · exact alookup_aerase_none fs src dst hnone
    · exact hnone
  simp [moveEntry, hnone2]

/-- One optional move block, successful because the source is present whenever
the block is enabled. -/
theorem moveEntry_step (verb warn src dst : String) (m : Bool) (fs : FS)
    (log : List String) (hne : m = true → src ≠ dst)
    (hsrc : m = true → ahas fs src = true) :
    (if m = true then moveEntry verb warn src dst fs log
     else Except.ok (fs, log)) =
      Except.ok
        (if m = true then aset (aerase fs src) dst (aget fs src) else fs,
         if m = true then
           (log ++ (if ahas fs dst then [warn] else [])) ++ [moveMsg verb src dst]
         else log) := by
  cases m
  · simp
  · obtain ⟨v, hv⟩ := Option.isSome_iff_exists.mp (hsrc rfl)
    rw [if_pos rfl, moveEntry_ok verb warn src dst fs log v (hne rfl) hv]
    simp [aget_eq_of_alookup hv]

/-- Full log of a successful Sanitize. -/
def sanitizeLog (source_dir folder1_name folder2_name xml_source_dir
    xml_filename replacement_xml_path destination_dir : String)
    (include_mods include_plugins include_xml : Bool) (label : String)
    (fs0 : FS) : List String :=
  let s2 := sanStage2 source_dir folder1_name folder2_name destination_dir
    include_mods include_plugins fs0
  let l2 := sanLog2 source_dir folder1_name folder2_name destination_dir
    include_mods include_plugins fs0
  if include_xml then
    let xml_src := pjoin xml_source_dir xml_filename
    let labeled := pjoin destination_dir (labeledXmlFilename xml_filename label)
    (((if ahas s2 labeled then
        l2 ++ ["Warning: " ++ labeled ++ " already exists. Overwriting..."]
      else l2) ++
      ["Moving " ++ xml_src ++ " -> " ++ labeled ++ "..."]) ++
      ["Copying replacement XML " ++ replacement_xml_path ++ " -> " ++
        xml_src ++ "..."]) ++
    ["Sanitize (Move) Operation completed successfully!"]
  else l2 ++ ["Sanitize (Move) Operation completed successfully!"]

/-- Characterization of a successful Sanitize run: the final filesystem and
log are the staged normal forms, and the pre-flight checks all held on the
initial state. -/
theorem sanitize_success_char (source_dir folder1_name folder2_name
    xml_source_dir xml_filename replacement_xml_path destination_dir : String)
    (include_mods include_plugins include_xml : Bool)
    (prompt : Option (Option String)) (fs0 fs1 : FS) (log1 : List String)
    (hrun : move_files_logic source_dir folder1_name folder2_name
      xml_source_dir xml_filename replacement_xml_path destination_dir
      include_mods include_plugins include_xml prompt fs0 = (true, fs1, log1)) :
    fs1 = sanitizeEffect source_dir folder1_name folder2_name xml_source_dir
      xml_filename replacement_xml_path destination_dir include_mods
      include_plugins include_xml (promptLabel prompt) fs0 ∧
    log1 = sanitizeLog source_dir folder1_name folder2_name xml_source_dir
      xml_filename replacement_xml_path destination_dir include_mods
      include_plugins include_xml (promptLabel prompt) fs0 ∧
    (include_xml = true → xml_source_dir ≠ destination_dir ∧
      ahas fs0 xml_source_dir = true ∧
      ahas fs0 (pjoin xml_source_dir xml_filename) = true ∧
      ahas fs0 replacement_xml_path = true) ∧
    ((include_mods || include_plugins) = true → source_dir ≠ destination_dir ∧
      ahas fs0 source_dir = true) ∧
    (include_mods = true → ahas fs0 (pjoin source_dir folder1_name) = true) ∧
    (include_plugins = true → ahas fs0 (pjoin source_dir folder2_name) = true) := by
  simp only [move_files_logic, abspath] at hrun
  obtain ⟨hc1, hrun⟩ := ite_success_step rfl hrun
  obtain ⟨hc2, hrun⟩ := ite_success_step rfl hrun
  obtain ⟨hc3, hrun⟩ := ite_success_step rfl hrun
  obtain ⟨hc4, hrun⟩ := ite_success_step rfl hrun
  obtain ⟨hc5, hrun⟩ := ite_success_step rfl hrun
  obtain ⟨hc6, hrun⟩ := ite_success_step rfl hrun
  obtain ⟨hc7, hrun⟩ := ite_success_step rfl hrun
  obtain ⟨hc8, hrun⟩ := ite_success_step rfl hrun
  have hXD : include_xml = true → xml_source_dir ≠ destination_dir := by
    intro hx
    rw [hx] at hc1
    simpa using hc1
  have hXex : include_xml = true → ahas fs0 xml_source_dir = true := by
    intro hx
    rw [hx] at hc2
    simpa using hc2
  have hxsex : include_xml = true →
      ahas fs0 (pjoin xml_source_dir xml_filename) = true := by
    intro hx
    rw [hx] at hc3
    simpa using hc3
  have hRex : include_xml = true → ahas fs0 replacement_xml_path = true := by
    intro hx
    rw [hx] at hc4
    simpa using hc4
  have hSD : (include_mods || include_plugins) = true →
      source_dir ≠ destination_dir := by
    intro hmp
    rw [hmp] at hc5
    simpa using hc5
  have hSex : (include_mods || include_plugins) = true →
      ahas fs0 source_dir = true := by
    intro hmp
    rw [hmp] at hc6
    simpa using hc6
  have hf1ex : include_mods = true →
      ahas fs0 (pjoin source_dir folder1_name) = true := by
    intro hm
    rw [hm] at hc7
    simpa using hc7
  have hf2ex : include_plugins = true →
      ahas fs0 (pjoin source_dir folder2_name) = true := by
    intro hp
    rw [hp] at hc8
    simpa using hc8
  have hne1 : include_mods = true →
      pjoin source_dir folder1_name ≠ pjoin destination_dir folder1_name := by
    intro hm
    exact pjoin_ne_of_ne folder1_name (hSD (by rw [hm]; simp))
  have hsrc1 : include_mods = true →
      ahas (sanStage0 destination_dir fs0) (pjoin source_dir folder1_name) = true := by
    intro hm
    unfold sanStage0
    split
    · exact ahas_aset_mono _ _ _ _ (hf1ex hm)
    · exact hf1ex hm
  rw [show (if (!ahas fs0 destination_dir) = true then aset fs0 destination_dir 0 else fs0)
        = sanStage0 destination_dir fs0 from rfl] at hrun
  rw [show (if (!ahas fs0 destination_dir) = true then
        ["Destination directory does not exist. Creating: " ++ destination_dir] else [])
        = sanLog0 destination_dir fs0 from rfl] at hrun
  rw [moveEntry_step "Moving"
    ("Warning: " ++ pjoin destination_dir folder1_name ++ " already exists. Overwriting...")
    (pjoin source_dir folder1_name) (pjoin destination_dir folder1_name)
    include_mods (sanStage0 destination_dir fs0) (sanLog0 destination_dir fs0)
    hne1 hsrc1] at hrun
  dsimp only [] at hrun
  rw [show (if include_mods = true then
        aset (aerase (sanStage0 destination_dir fs0) (pjoin source_dir folder1_name))
          (pjoin destination_dir folder1_name)
          (aget (sanStage0 destination_dir fs0) (pjoin source_dir folder1_name))
      else sanStage0 destination_dir fs0)
      = sanStage1 source_dir folder1_name destination_dir include_mods fs0 from rfl] at hrun
  rw [show (if include_mods = true then
        (sanLog0 destination_dir fs0 ++
          (if ahas (sanStage0 destination_dir fs0) (pjoin destination_dir folder1_name) then
            ["Warning: " ++ pjoin destination_dir folder1_name ++ " already exists. Overwriting..."]
          else [])) ++
          [moveMsg "Moving" (pjoin source_dir folder1_name) (pjoin destination_dir folder1_name)]
      else sanLog0 destination_dir fs0)
      = sanLog1 source_dir folder1_name destination_dir include_mods fs0 from rfl] at hrun
  have hne2 : include_plugins = true →
      pjoin source_dir folder2_name ≠ pjoin destination_dir folder2_name := by
    intro hp
    exact pjoin_ne_of_ne folder2_name (hSD (by rw [hp]; simp))
  by_cases hsrc2 : include_plugins = true →
      ahas (sanStage1 source_dir folder1_name destination_dir include_mods fs0)
        (pjoin source_dir folder2_name) = true
  case neg =>
    exfalso
    rw [Classical.not_imp] at hsrc2
    obtain ⟨hp, hna⟩ := hsrc2
    rw [hp] at hrun
    simp only [eq_self_iff_true, if_true] at hrun
    rw [moveEntry_fail "Moving"
      ("Warning: " ++ pjoin destination_dir folder2_name ++ " already exists. Overwriting...")
      (pjoin source_dir folder2_name) (pjoin destination_dir folder2_name)
      (sanStage1 source_dir folder1_name destination_dir include_mods fs0)
      (sanLog1 source_dir folder1_name destination_dir include_mods fs0)
      (by rwa [Bool.not_eq_true] at hna)] at hrun
    dsimp only [] at hrun
    simp at hrun
  case pos =>
  rw [moveEntry_step "Moving"
    ("Warning: " ++ pjoin destination_dir folder2_name ++ " already exists. Overwriting...")
    (pjoin source_dir folder2_name) (pjoin destination_dir folder2_name)
    include_plugins
    (sanStage1 source_dir folder1_name destination_dir include_mods fs0)
    (sanLog1 source_dir folder1_name destination_dir include_mods fs0)
    hne2 hsrc2] at hrun
  dsimp only [] at hrun
  rw [show (if include_plugins = true then
        aset (aerase (sanStage1 source_dir folder1_name destination_dir include_mods fs0)
            (pjoin source_dir folder2_name))
          (pjoin destination_dir folder2_name)
          (aget (sanStage1 source_dir folder1_name destination_dir include_mods fs0)
            (pjoin source_dir folder2_name))
      else sanStage1 source_dir folder1_name destination_dir include_mods fs0)
      = sanStage2 source_dir folder1_name folder2_name destination_dir
          include_mods include_plugins fs0 from rfl] at hrun
  rw [show (if include_plugins = true then
        (sanLog1 source_dir folder1_name destination_dir include_mods fs0 ++
          (if ahas (sanStage1 source_dir folder1_name destination_dir include_mods fs0)
              (pjoin destination_dir folder2_name) then
            ["Warning: " ++ pjoin destination_dir folder2_name ++ " already exists. Overwriting..."]
          else [])) ++
          [moveMsg "Moving" (pjoin source_dir folder2_name) (pjoin destination_dir folder2_name)]
      else sanLog1 source_dir folder1_name destination_dir include_mods fs0)
      = sanLog2 source_dir folder1_name folder2_name destination_dir
          include_mods include_plugins fs0 from rfl] at hrun
  cases include_xml with
  | false =>
    rw [if_neg (by decide : ¬ ((false : Bool) = true))] at hrun
    simp only [Prod.mk.injEq, true_and] at hrun
    obtain ⟨hA, hB⟩ := hrun
    refine ⟨?_, ?_, ?_, fun hmp => ⟨hSD hmp, hSex hmp⟩, hf1ex, hf2ex⟩
    · rw [← hA]
      rfl
    · rw [← hB]
      rfl
    · intro h
      exact absurd h (by decide)
  | true =>
    rw [if_pos rfl] at hrun
    rcases hxe : alookup
        (if ahas (sanStage2 source_dir folder1_name folder2_name destination_dir
            include_mods include_plugins fs0) (pjoin destination_dir (labeledXmlFilename xml_filename (promptLabel prompt))) = true then
          aerase (sanStage2 source_dir folder1_name folder2_name destination_dir
            include_mods include_plugins fs0) (pjoin destination_dir (labeledXmlFilename xml_filename (promptLabel prompt)))
        else sanStage2 source_dir folder1_name folder2_name destination_dir
            include_mods include_plugins fs0)
        (pjoin xml_source_dir xml_filename) with _ | v
    · rw [hxe] at hrun
      dsimp only [] at hrun
      simp at hrun
    · rw [hxe] at hrun
      dsimp only [] at hrun
      rcases hre : alookup
          (aset (aerase
            (if ahas (sanStage2 source_dir folder1_name folder2_name destination_dir
            include_mods include_plugins fs0) (pjoin destination_dir (labeledXmlFilename xml_filename (promptLabel prompt))) = true then
              aerase (sanStage2 source_dir folder1_name folder2_name destination_dir
            include_mods include_plugins fs0) (pjoin destination_dir (labeledXmlFilename xml_filename (promptLabel prompt)))
            else sanStage2 source_dir folder1_name folder2_name destination_dir
            include_mods include_plugins fs0)
            (pjoin xml_source_dir xml_filename)) (pjoin destination_dir (labeledXmlFilename xml_filename (promptLabel prompt))) v)
          replacement_xml_path with _ | w
      · rw [hre] at hrun
        dsimp only [] at hrun
        simp at hrun
      · rw [hre] at hrun
        dsimp only [] at hrun
        simp only [Prod.mk.injEq, true_and] at hrun
        obtain ⟨hA, hB⟩ := hrun
        have hv2 : alookup (sanStage2 source_dir folder1_name folder2_name destination_dir
            include_mods include_plugins fs0) (pjoin xml_source_dir xml_filename) = some v :=
          alookup_of_overwrite_some hxe
        rw [aset_aerase_ite_collapse] at hre hA
        refine ⟨?_, ?_, fun _ => ⟨hXD rfl, hXex rfl, hxsex rfl, hRex rfl⟩,
          fun hmp => ⟨hSD hmp, hSex hmp⟩, hf1ex, hf2ex⟩
        · rw [← hA]
          simp only [sanitizeEffect, eq_self_iff_true, if_true]
          rw [aget_eq_of_alookup hv2, aget_eq_of_alookup hre]
        · rw [← hB]
          rfl

/-- The log after the mods restore of Restore. -/
def revLog1 (source_dir folder1_name xml_source_dir destination_dir : String)
    (include_mods include_plugins include_xml : Bool) (fs0 : FS) : List String :=
  if include_mods then
    (([] : List String) ++
      (if ahas (revStage0 source_dir xml_source_dir include_mods include_plugins
          include_xml fs0) (pjoin source_dir folder1_name) then
        ["Warning: " ++ pjoin source_dir folder1_name ++
          " already exists in Source. Overwriting..."]
      else [])) ++
    [moveMsg "Restoring" (pjoin destination_dir folder1_name)
      (pjoin source_dir folder1_name)]
  else []

/-- The log after the plugins restore of Restore. -/
def revLog2 (source_dir folder1_name folder2_name xml_source_dir
    destination_dir : String)
    (include_mods include_plugins include_xml : Bool) (fs0 : FS) : List String :=
  if include_plugins then
    (revLog1 source_dir folder1_name xml_source_dir destination_dir
        include_mods include_plugins include_xml fs0 ++
      (if ahas (revStage1 source_dir folder1_name xml_source_dir destination_dir
          include_mods include_plugins include_xml fs0)
          (pjoin source_dir folder2_name) then
        ["Warning: " ++ pjoin source_dir folder2_name ++
          " already exists in Source. Overwriting..."]
      else [])) ++
    [moveMsg "Restoring" (pjoin destination_dir folder2_name)
      (pjoin source_dir folder2_name)]
  else revLog1 source_dir folder1_name xml_source_dir destination_dir
    include_mods include_plugins include_xml fs0

/-- Characterization of a successful Restore run: the final filesystem is the
staged normal form and the pre-flight checks held. -/
theorem revert_success_char (source_dir folder1_name folder2_name
    xml_source_dir xml_filename destination_dir : String)
    (include_mods include_plugins include_xml : Bool)
    (restore_xml_path : Option String) (fs0 fs1 : FS) (log1 : List String)
    (hrun : revert_files_logic source_dir folder1_name folder2_name
      xml_source_dir xml_filename destination_dir include_mods include_plugins
      include_xml restore_xml_path fs0 = (true, fs1, log1)) :
    fs1 = revertEffect source_dir folder1_name folder2_name xml_source_dir
      xml_filename destination_dir include_mods include_plugins include_xml
      restore_xml_path fs0 ∧
    source_dir ≠ destination_dir ∧
    (include_xml = true → xml_source_dir ≠ destination_dir ∧
      ahas fs0 (restorePath destination_dir xml_filename restore_xml_path) = true) ∧
    (include_mods = true → ahas (revStageX xml_source_dir include_xml fs0) (pjoin destination_dir folder1_name) = true) ∧
    (include_plugins = true → ahas (revStageX xml_source_dir include_xml fs0) (pjoin destination_dir folder2_name) = true) := by
  simp only [revert_files_logic, abspath] at hrun
  obtain ⟨hc1, hrun⟩ := ite_success_step rfl hrun
  obtain ⟨hc2, hrun⟩ := ite_success_step rfl hrun
  rw [show (if (include_xml && !ahas fs0 xml_source_dir) = true then
        aset fs0 xml_source_dir 0 else fs0) = revStageX xml_source_dir include_xml fs0 from rfl] at hrun
  obtain ⟨hc3, hrun⟩ := ite_success_step rfl hrun
  obtain ⟨hc4, hrun⟩ := ite_success_step rfl hrun
  obtain ⟨hc5, hrun⟩ := ite_success_step rfl hrun
  obtain ⟨hc6, hrun⟩ := ite_success_step rfl hrun
  have hSD : source_dir ≠ destination_dir := by simpa using hc3
  have hXD : include_xml = true → xml_source_dir ≠ destination_dir := by
    intro hx
    rw [hx] at hc1
    simpa using hc1
  have hbex : include_xml = true → ahas fs0 (restorePath destination_dir xml_filename restore_xml_path) = true := by
    intro hx
    rw [hx] at hc2
    simpa using hc2
  have hf1ex : include_mods = true → ahas (revStageX xml_source_dir include_xml fs0) (pjoin destination_dir folder1_name) = true := by
    intro hm
    rw [hm] at hc5
    simpa using hc5
  have hf2ex : include_plugins = true → ahas (revStageX xml_source_dir include_xml fs0) (pjoin destination_dir folder2_name) = true := by
    intro hp
    rw [hp] at hc6
    simpa using hc6
  rw [show (if ((include_mods || include_plugins) && !ahas (revStageX xml_source_dir include_xml fs0) source_dir) = true then
        aset (revStageX xml_source_dir include_xml fs0) source_dir 0 else revStageX xml_source_dir include_xml fs0)
      = revStage0 source_dir xml_source_dir include_mods include_plugins
      include_xml fs0 from rfl] at hrun
  have hne1 : include_mods = true → pjoin destination_dir folder1_name ≠ pjoin source_dir folder1_name := by
    intro hm
    exact pjoin_ne_of_ne folder1_name (Ne.symm hSD)
  have hsrc1 : include_mods = true → ahas (revStage0 source_dir xml_source_dir include_mods include_plugins
      include_xml fs0) (pjoin destination_dir folder1_name) = true := by
    intro hm
    simp only [revStage0]
    split
    · exact ahas_aset_mono _ _ _ _ (hf1ex hm)
    · exact hf1ex hm
  rw [moveEntry_step "Restoring"
    ("Warning: " ++ pjoin source_dir folder1_name ++ " already exists in Source. Overwriting...")
    (pjoin destination_dir folder1_name) (pjoin source_dir folder1_name) include_mods (revStage0 source_dir xml_source_dir include_mods include_plugins
      include_xml fs0) [] hne1 hsrc1] at hrun
  dsimp only [] at hrun
  rw [show (if include_mods = true then
        aset (aerase (revStage0 source_dir xml_source_dir include_mods include_plugins
      include_xml fs0) (pjoin destination_dir folder1_name)) (pjoin source_dir folder1_name) (aget (revStage0 source_dir xml_source_dir include_mods include_plugins
      include_xml fs0) (pjoin destination_dir folder1_name))
      else revStage0 source_dir xml_source_dir include_mods include_plugins
      include_xml fs0) = revStage1 source_dir folder1_name xml_source_dir destination_dir
      include_mods include_plugins include_xml fs0 from rfl] at hrun
  rw [show (if include_mods = true then
        (([] : List String) ++
          (if ahas (revStage0 source_dir xml_source_dir include_mods include_plugins
      include_xml fs0) (pjoin source_dir folder1_name) then
            ["Warning: " ++ pjoin source_dir folder1_name ++ " already exists in Source. Overwriting..."]
          else [])) ++
          [moveMsg "Restoring" (pjoin destination_dir folder1_name) (pjoin source_dir folder1_name)]
      else ([] : List String)) = revLog1 source_dir folder1_name xml_source_dir destination_dir
      include_mods include_plugins include_xml fs0 from rfl] at hrun
  have hne2 : include_plugins = true → pjoin destination_dir folder2_name ≠ pjoin source_dir folder2_name := by
    intro hp
    exact pjoin_ne_of_ne folder2_name (Ne.symm hSD)
  by_cases hsrc2 : include_plugins = true → ahas (revStage1 source_dir folder1_name xml_source_dir destination_dir
      include_mods include_plugins include_xml fs0) (pjoin destination_dir folder2_name) = true
  case neg =>
    exfalso
    rw [Classical.not_imp] at hsrc2
    obtain ⟨hp, hna⟩ := hsrc2
    rw [hp] at hrun hna
    simp only [eq_self_iff_true, if_true] at hrun
    rw [moveEntry_fail "Restoring"
      ("Warning: " ++ pjoin source_dir folder2_name ++ " already exists in Source. Overwriting...")
      (pjoin destination_dir folder2_name) (pjoin source_dir folder2_name)
      (revStage1 source_dir folder1_name xml_source_dir destination_dir
        include_mods true include_xml fs0)
      (revLog1 source_dir folder1_name xml_source_dir destination_dir
        include_mods true include_xml fs0)
      (by rwa [Bool.not_eq_true] at hna)] at hrun
    dsimp only [] at hrun
    simp at hrun
  case pos =>
  rw [moveEntry_step "Restoring"
    ("Warning: " ++ pjoin source_dir folder2_name ++ " already exists in Source. Overwriting...")
    (pjoin destination_dir folder2_name) (pjoin source_dir folder2_name) include_plugins (revStage1 source_dir folder1_name xml_source_dir destination_dir
      include_mods include_plugins include_xml fs0) (revLog1 source_dir folder1_name xml_source_dir destination_dir
      include_mods include_plugins include_xml fs0) hne2 hsrc2] at hrun
  dsimp only [] at hrun
  rw [show (if include_plugins = true then
        aset (aerase (revStage1 source_dir folder1_name xml_source_dir destination_dir
      include_mods include_plugins include_xml fs0) (pjoin destination_dir folder2_name)) (pjoin source_dir folder2_name) (aget (revStage1 source_dir folder1_name xml_source_dir destination_dir
      include_mods include_plugins include_xml fs0) (pjoin destination_dir folder2_name))
      else revStage1 source_dir folder1_name xml_source_dir destination_dir
      include_mods include_plugins include_xml fs0) = revStage2 source_dir folder1_name folder2_name xml_source_dir destination_dir
      include_mods include_plugins include_xml fs0 from rfl] at hrun
  rw [show (if include_plugins = true then
        (revLog1 source_dir folder1_name xml_source_dir destination_dir
      include_mods include_plugins include_xml fs0 ++
          (if ahas (revStage1 source_dir folder1_name xml_source_dir destination_dir
      include_mods include_plugins include_xml fs0) (pjoin source_dir folder2_name) then
            ["Warning: " ++ pjoin source_dir folder2_name ++ " already exists in Source. Overwriting..."]
          else [])) ++
          [moveMsg "Restoring" (pjoin destination_dir folder2_name) (pjoin source_dir folder2_name)]
      else revLog1 source_dir folder1_name xml_source_dir destination_dir
      include_mods include_plugins include_xml fs0) = revLog2 source_dir folder1_name folder2_name xml_source_dir destination_dir
      include_mods include_plugins include_xml fs0 from rfl] at hrun
  cases include_xml with
  | false =>
    rw [if_neg (by decide : ¬ ((false : Bool) = true))] at hrun
    simp only [Prod.mk.injEq, true_and] at hrun
    obtain ⟨hA, hB⟩ := hrun
    refine ⟨?_, hSD, ?_, hf1ex, hf2ex⟩
    · rw [← hA]
      rfl
    · intro h
      exact absurd h (by decide)
  | true =>
    rw [if_pos rfl] at hrun
    rcases hxe : alookup
        (if ahas (revStage2 source_dir folder1_name folder2_name xml_source_dir destination_dir
          include_mods include_plugins true fs0) (pjoin xml_source_dir xml_filename) = true then
          aerase (revStage2 source_dir folder1_name folder2_name xml_source_dir destination_dir
          include_mods include_plugins true fs0) (pjoin xml_source_dir xml_filename)
        else revStage2 source_dir folder1_name folder2_name xml_source_dir destination_dir
          include_mods include_plugins true fs0)
        (restorePath destination_dir xml_filename restore_xml_path) with _ | v
    · rw [hxe] at hrun
      dsimp only [] at hrun
      simp at hrun
    · rw [hxe] at hrun
      dsimp only [] at hrun
      simp only [Prod.mk.injEq, true_and] at hrun
      obtain ⟨hA, hB⟩ := hrun
      have hv2 : alookup (revStage2 source_dir folder1_name folder2_name xml_source_dir destination_dir
          include_mods include_plugins true fs0) (restorePath destination_dir xml_filename restore_xml_path) = some v :=
        alookup_of_overwrite_some hxe
      rw [aset_aerase_ite_collapse] at hA
      refine ⟨?_, hSD, fun _ => ⟨hXD rfl, hbex rfl⟩, hf1ex, hf2ex⟩
      · rw [← hA]
        simp only [revertEffect, eq_self_iff_true, if_true]
        rw [aget_eq_of_alookup hv2]

/-! ## Lookup preservation through the staged effects -/

theorem alookup_sanStage0_of_ne {q : String} (destination_dir : String)
    (fs0 : FS) (hqD : q ≠ destination_dir) :
    alookup (sanStage0 destination_dir fs0) q = alookup fs0 q := by
  unfold sanStage0
  split
  · exact alookup_aset_of_ne fs0 0 hqD
  · rfl

theorem alookup_sanStage1_of_ne {q : String}
    (source_dir folder1_name destination_dir : String) (include_mods : Bool)
    (fs0 : FS) (hqD : q ≠ destination_dir)
    (hq1s : q ≠ pjoin source_dir folder1_name)
    (hq1d : q ≠ pjoin destination_dir folder1_name) :
    alookup (sanStage1 source_dir folder1_name destination_dir include_mods fs0) q
      = alookup fs0 q := by
  simp only [sanStage1]
  split
  · rw [alookup_aset_of_ne _ _ hq1d, alookup_aerase_of_ne _ hq1s]
    exact alookup_sanStage0_of_ne destination_dir fs0 hqD
  · exact alookup_sanStage0_of_ne destination_dir fs0 hqD

theorem alookup_sanStage2_of_ne {q : String}
    (source_dir folder1_name folder2_name destination_dir : String)
    (include_mods include_plugins : Bool) (fs0 : FS)
    (hqD : q ≠ destination_dir)
    (hq1s : q ≠ pjoin source_dir folder1_name)
    (hq1d : q ≠ pjoin destination_dir folder1_name)
    (hq2s : q ≠ pjoin source_dir folder2_name)
    (hq2d : q ≠ pjoin destination_dir folder2_name) :
    alookup (sanStage2 source_dir folder1_name folder2_name destination_dir
      include_mods include_plugins fs0) q = alookup fs0 q := by
  simp only [sanStage2]
  split
  · rw [alookup_aset_of_ne _ _ hq2d, alookup_aerase_of_ne _ hq2s]
    exact alookup_sanStage1_of_ne source_dir folder1_name destination_dir
      include_mods fs0 hqD hq1s hq1d
  · exact alookup_sanStage1_of_ne source_dir folder1_name destination_dir
      include_mods fs0 hqD hq1s hq1d

theorem alookup_revStageX_of_ne {q : String} (xml_source_dir : String)
    (include_xml : Bool) (fs0 : FS) (hqX : q ≠ xml_source_dir) :
    alookup (revStageX xml_source_dir include_xml fs0) q = alookup fs0 q := by
  unfold revStageX
  split
  · exact alookup_aset_of_ne fs0 0 hqX
  · rfl

theorem alookup_revStage0_of_ne {q : String} (source_dir xml_source_dir : String)
    (include_mods include_plugins include_xml : Bool) (fs0 : FS)
    (hqX : q ≠ xml_source_dir) (hqS : q ≠ source_dir) :
    alookup (revStage0 source_dir xml_source_dir include_mods include_plugins
      include_xml fs0) q = alookup fs0 q := by
  simp only [revStage0]
  split
  · rw [alookup_aset_of_ne _ _ hqS]
    exact alookup_revStageX_of_ne xml_source_dir include_xml fs0 hqX
  · exact alookup_revStageX_of_ne xml_source_dir include_xml fs0 hqX

theorem alookup_revStage1_of_ne {q : String}
    (source_dir folder1_name xml_source_dir destination_dir : String)
    (include_mods include_plugins include_xml : Bool) (fs0 : FS)
    (hqX : q ≠ xml_source_dir) (hqS : q ≠ source_dir)
    (hq1d : q ≠ pjoin destination_dir folder1_name)
    (hq1s : q ≠ pjoin source_dir folder1_name) :
    alookup (revStage1 source_dir folder1_name xml_source_dir destination_dir
      include_mods include_plugins include_xml fs0) q = alookup fs0 q := by
  simp only [revStage1]
  split
  · rw [alookup_aset_of_ne _ _ hq1s, alookup_aerase_of_ne _ hq1d]
    exact alookup_revStage0_of_ne source_dir xml_source_dir include_mods
      include_plugins include_xml fs0 hqX hqS
  · exact alookup_revStage0_of_ne source_dir xml_source_dir include_mods
      include_plugins include_xml fs0 hqX hqS

theorem alookup_revStage2_of_ne {q : String}
    (source_dir folder1_name folder2_name xml_source_dir destination_dir : String)
    (include_mods include_plugins include_xml : Bool) (fs0 : FS)
    (hqX : q ≠ xml_source_dir) (hqS : q ≠ source_dir)
    (hq1d : q ≠ pjoin destination_dir folder1_name)
    (hq1s : q ≠ pjoin source_dir folder1_name)
    (hq2d : q ≠ pjoin destination_dir folder2_name)
    (hq2s : q ≠ pjoin source_dir folder2_name) :
    alookup (revStage2 source_dir folder1_name folder2_name xml_source_dir
      destination_dir include_mods include_plugins include_xml fs0) q
      = alookup fs0 q := by
  simp only [revStage2]
  split
  · rw [alookup_aset_of_ne _ _ hq2s, alookup_aerase_of_ne _ hq2d]
    exact alookup_revStage1_of_ne source_dir folder1_name xml_source_dir
      destination_dir include_mods include_plugins include_xml fs0 hqX hqS hq1d hq1s
  · exact alookup_revStage1_of_ne source_dir folder1_name xml_source_dir
      destination_dir include_mods include_plugins include_xml fs0 hqX hqS hq1d hq1s

/-- Claim C8: during Sanitize with xml flagged, the label used in the backup
filename is exactly the claim-described sanitization of the prompt result, an
empty or cancelled prompt yielding "backup"; on success the previous settings
file sits in the destination root under basename_label-extension, and when a
file of that name already existed an overwrite warning was logged before it
was deleted. -/
theorem C8_backup_label_and_name (source_dir folder1_name folder2_name
    xml_source_dir xml_filename replacement_xml_path destination_dir : String)
    (include_mods include_plugins : Bool) (prompt : Option (Option String))
    (fs0 fs1 : FS) (log1 : List String)
    (hrun : move_files_logic source_dir folder1_name folder2_name
      xml_source_dir xml_filename replacement_xml_path destination_dir
      include_mods include_plugins true prompt fs0 = (true, fs1, log1))
    (hLD : pjoin destination_dir (labeledXmlFilename xml_filename
      (claimLabel prompt)) ≠ destination_dir)
    (hLf1s : pjoin destination_dir (labeledXmlFilename xml_filename
      (claimLabel prompt)) ≠ pjoin source_dir folder1_name)
    (hLf1d : pjoin destination_dir (labeledXmlFilename xml_filename
      (claimLabel prompt)) ≠ pjoin destination_dir folder1_name)
    (hLf2s : pjoin destination_dir (labeledXmlFilename xml_filename
      (claimLabel prompt)) ≠ pjoin source_dir folder2_name)
    (hLf2d : pjoin destination_dir (labeledXmlFilename xml_filename
      (claimLabel prompt)) ≠ pjoin destination_dir folder2_name)
    (hxsL : pjoin xml_source_dir xml_filename ≠ pjoin destination_dir (labeledXmlFilename xml_filename
      (claimLabel prompt)))
    (hxsD : pjoin xml_source_dir xml_filename ≠ destination_dir)
    (hxsf1s : pjoin xml_source_dir xml_filename ≠ pjoin source_dir folder1_name)
    (hxsf1d : pjoin xml_source_dir xml_filename ≠ pjoin destination_dir folder1_name)
    (hxsf2s : pjoin xml_source_dir xml_filename ≠ pjoin source_dir folder2_name)
    (hxsf2d : pjoin xml_source_dir xml_filename ≠ pjoin destination_dir folder2_name) :
    (∀ pc, promptLabel pc = claimLabel pc) ∧
    alookup fs1 (pjoin destination_dir (labeledXmlFilename xml_filename
      (claimLabel prompt))) = alookup fs0 (pjoin xml_source_dir xml_filename) ∧
    (ahas fs0 (pjoin destination_dir (labeledXmlFilename xml_filename
      (claimLabel prompt))) = true →
      ("Warning: " ++ pjoin destination_dir (labeledXmlFilename xml_filename
      (claimLabel prompt)) ++ " already exists. Overwriting...") ∈ log1) := by
  have hlabel : ∀ pc, promptLabel pc = claimLabel pc := by
    intro pc
    match pc with
    | none => rfl
    | some none => rfl
    | some (some u) =>
      by_cases hu : u = ""
      · simp [promptLabel, claimLabel, hu]
      · simp [promptLabel, claimLabel, sanitizeLabel, hu]
  have hswap : claimLabel prompt = promptLabel prompt := (hlabel prompt).symm
  rw [hswap] at hLD hLf1s hLf1d hLf2s hLf2d hxsL ⊢
  obtain ⟨hfs, hlog, hxf, hmpf, hf1f, hf2f⟩ := sanitize_success_char source_dir
    folder1_name folder2_name xml_source_dir xml_filename replacement_xml_path
    destination_dir include_mods include_plugins true prompt fs0 fs1 log1 hrun
  obtain ⟨hXD, hXex, hxsex, hRex⟩ := hxf rfl
  refine ⟨hlabel, ?_, ?_⟩
  · rw [hfs]
    simp only [sanitizeEffect, eq_self_iff_true, if_true]
    rw [alookup_aset_of_ne _ _ (Ne.symm hxsL), alookup_aset_self]
    have hlk : alookup (sanStage2 source_dir folder1_name folder2_name destination_dir
        include_mods include_plugins fs0) (pjoin xml_source_dir xml_filename) = alookup fs0 (pjoin xml_source_dir xml_filename) :=
      alookup_sanStage2_of_ne source_dir folder1_name folder2_name
        destination_dir include_mods include_plugins fs0 hxsD hxsf1s hxsf1d
        hxsf2s hxsf2d
    obtain ⟨u, hu⟩ := Option.isSome_iff_exists.mp hxsex
    rw [hu]
    rw [show aget (sanStage2 source_dir folder1_name folder2_name destination_dir
        include_mods include_plugins fs0) (pjoin xml_source_dir xml_filename) = u from by rw [aget, hlk, hu]; rfl]
  · intro how
    rw [hlog]
    simp only [sanitizeLog, eq_self_iff_true, if_true]
    have hahas : ahas (sanStage2 source_dir folder1_name folder2_name destination_dir
        include_mods include_plugins fs0) (pjoin destination_dir (labeledXmlFilename xml_filename (promptLabel prompt))) = true := by
      rw [show ahas (sanStage2 source_dir folder1_name folder2_name destination_dir
        include_mods include_plugins fs0) (pjoin destination_dir (labeledXmlFilename xml_filename (promptLabel prompt))) = ahas fs0 (pjoin destination_dir (labeledXmlFilename xml_filename (promptLabel prompt))) from by
        simp [ahas, alookup_sanStage2_of_ne source_dir folder1_name
          folder2_name destination_dir include_mods include_plugins fs0
          hLD hLf1s hLf1d hLf2s hLf2d]]
      exact how
    rw [if_pos hahas]
    simp

theorem C8_witness :
    alookup (move_files_logic "/s" "mods" "plugins" "/x" "settings.xml"
        "/r/new.xml" "/d" true true true (some (some "My Backup!!"))
        [("/s", 0), ("/x", 0), ("/s/mods", 1), ("/s/plugins", 2),
         ("/x/settings.xml", 3), ("/r/new.xml", 4)]).2.1
      (pjoin "/d" (labeledXmlFilename "settings.xml"
        (claimLabel (some (some "My Backup!!")))))
      = alookup [("/s", 0), ("/x", 0), ("/s/mods", 1), ("/s/plugins", 2),
         ("/x/settings.xml", 3), ("/r/new.xml", 4)] (pjoin "/x" "settings.xml") :=
  (C8_backup_label_and_name "/s" "mods" "plugins" "/x" "settings.xml"
    "/r/new.xml" "/d" true true (some (some "My Backup!!"))
    [("/s", 0), ("/x", 0), ("/s/mods", 1), ("/s/plugins", 2),
     ("/x/settings.xml", 3), ("/r/new.xml", 4)]
    (move_files_logic "/s" "mods" "plugins" "/x" "settings.xml" "/r/new.xml"
      "/d" true true true (some (some "My Backup!!"))
      [("/s", 0), ("/x", 0), ("/s/mods", 1), ("/s/plugins", 2),
       ("/x/settings.xml", 3), ("/r/new.xml", 4)]).2.1
    (move_files_logic "/s" "mods" "plugins" "/x" "settings.xml" "/r/new.xml"
      "/d" true true true (some (some "My Backup!!"))
      [("/s", 0), ("/x", 0), ("/s/mods", 1), ("/s/plugins", 2),
       ("/x/settings.xml", 3), ("/r/new.xml", 4)]).2.2
    (by decide) (by decide) (by decide) (by decide) (by decide) (by decide)
    (by decide) (by decide) (by decide) (by decide) (by decide) (by decide)).2.1

/-! ## Validation-phase predicates (the pre-flight checks, in source order) -/

/-- True exactly when the pre-flight phase of move_files_logic (logic.py
lines 95-129) fails with SameDirectory or NotFound. -/
def moveValidationFails (source_dir folder1_name folder2_name xml_source_dir
    xml_filename replacement_xml_path destination_dir : String)
    (include_mods include_plugins include_xml : Bool) (fs : FS) : Bool :=
  (include_xml && (abspath xml_source_dir == abspath destination_dir)) ||
  (include_xml && !(ahas fs (abspath xml_source_dir))) ||
  (include_xml && !(ahas fs (pjoin (abspath xml_source_dir) xml_filename))) ||
  (include_xml && !(ahas fs (abspath replacement_xml_path))) ||
  ((include_mods || include_plugins) &&
    (abspath source_dir == abspath destination_dir)) ||
  ((include_mods || include_plugins) && !(ahas fs (abspath source_dir))) ||
  (include_mods && !(ahas fs (pjoin (abspath source_dir) folder1_name))) ||
  (include_plugins && !(ahas fs (pjoin (abspath source_dir) folder2_name)))

/-- True exactly when the pre-flight phase of revert_files_logic (logic.py
lines 216-250) fails with SameDirectory or NotFound; the checks after line
232 read the state in which a missing xml source directory was already
created. -/
def revertValidationFails (source_dir folder1_name folder2_name
    xml_source_dir xml_filename destination_dir : String)
    (include_mods include_plugins include_xml : Bool)
    (restore_xml_path : Option String) (fs : FS) : Bool :=
  let s0 := revStageX (abspath xml_source_dir) include_xml fs
  (include_xml && (abspath xml_source_dir == abspath destination_dir)) ||
  (include_xml && !(ahas fs (restorePath (abspath destination_dir)
    xml_filename restore_xml_path))) ||
  (abspath source_dir == abspath destination_dir) ||
  !(ahas s0 (abspath destination_dir)) ||
  (include_mods && !(ahas s0 (pjoin (abspath destination_dir) folder1_name))) ||
  (include_plugins && !(ahas s0 (pjoin (abspath destination_dir) folder2_name)))

/-- Claim C2 (amended): a validation failure of Sanitize returns false with
the filesystem completely unchanged; a validation failure of Restore returns
false and leaves the filesystem unchanged except that, when xml is flagged
and the xml source directory was absent, that directory has been created
(logic.py lines 231-232 run before the remaining checks). -/
theorem C2_validation_no_mutation (source_dir folder1_name folder2_name
    xml_source_dir xml_filename replacement_xml_path destination_dir : String)
    (include_mods include_plugins include_xml : Bool)
    (prompt : Option (Option String)) (restore_xml_path : Option String)
    (fs : FS) :
    (moveValidationFails source_dir folder1_name folder2_name xml_source_dir
        xml_filename replacement_xml_path destination_dir include_mods
        include_plugins include_xml fs = true →
      (move_files_logic source_dir folder1_name folder2_name xml_source_dir
        xml_filename replacement_xml_path destination_dir include_mods
        include_plugins include_xml prompt fs).1 = false ∧
      (move_files_logic source_dir folder1_name folder2_name xml_source_dir
        xml_filename replacement_xml_path destination_dir include_mods
        include_plugins include_xml prompt fs).2.1 = fs) ∧
    (revertValidationFails source_dir folder1_name folder2_name xml_source_dir
        xml_filename destination_dir include_mods include_plugins include_xml
        restore_xml_path fs = true →
      (revert_files_logic source_dir folder1_name folder2_name xml_source_dir
        xml_filename destination_dir include_mods include_plugins include_xml
        restore_xml_path fs).1 = false ∧
      ((revert_files_logic source_dir folder1_name folder2_name xml_source_dir
        xml_filename destination_dir include_mods include_plugins include_xml
        restore_xml_path fs).2.1 = fs ∨
        (revert_files_logic source_dir folder1_name folder2_name xml_source_dir
        xml_filename destination_dir include_mods include_plugins include_xml
        restore_xml_path fs).2.1 = aset fs (abspath xml_source_dir) 0)) := by
  constructor
  · intro hv
    by_cases h1 : (include_xml && (xml_source_dir == destination_dir)) = true
    · have hstep : (move_files_logic source_dir folder1_name folder2_name xml_source_dir
        xml_filename replacement_xml_path destination_dir include_mods
        include_plugins include_xml prompt fs) = (false, fs, ["Error: XML source directory and Destination directory are the same."]) := by
        simp only [move_files_logic, abspath]
        rw [if_pos h1]
      rw [hstep]
      exact ⟨rfl, rfl⟩
    by_cases h2 : (include_xml && !(ahas fs xml_source_dir)) = true
    · have hstep : (move_files_logic source_dir folder1_name folder2_name xml_source_dir
        xml_filename replacement_xml_path destination_dir include_mods
        include_plugins include_xml prompt fs) = (false, fs, ["Error: XML source dir not found: " ++ xml_source_dir]) := by
        simp only [move_files_logic, abspath]
        rw [if_neg h1, if_pos h2]
      rw [hstep]
      exact ⟨rfl, rfl⟩
    by_cases h3 : (include_xml && !(ahas fs (pjoin xml_source_dir xml_filename))) = true
    · have hstep : (move_files_logic source_dir folder1_name folder2_name xml_source_dir
        xml_filename replacement_xml_path destination_dir include_mods
        include_plugins include_xml prompt fs) = (false, fs, ["Error: XML file not found in Source: " ++ pjoin xml_source_dir xml_filename]) := by
        simp only [move_files_logic, abspath]
        rw [if_neg h1, if_neg h2, if_pos h3]
      rw [hstep]
      exact ⟨rfl, rfl⟩
    by_cases h4 : (include_xml && !(ahas fs replacement_xml_path)) = true
    · have hstep : (move_files_logic source_dir folder1_name folder2_name xml_source_dir
        xml_filename replacement_xml_path destination_dir include_mods
        include_plugins include_xml prompt fs) = (false, fs, ["Error: Replacement XML not found: " ++ replacement_xml_path]) := by
        simp only [move_files_logic, abspath]
        rw [if_neg h1, if_neg h2, if_neg h3, if_pos h4]
      rw [hstep]
      exact ⟨rfl, rfl⟩
    by_cases h5 : ((include_mods || include_plugins) && (source_dir == destination_dir)) = true
    · have hstep : (move_files_logic source_dir folder1_name folder2_name xml_source_dir
        xml_filename replacement_xml_path destination_dir include_mods
        include_plugins include_xml prompt fs) = (false, fs, ["Error: Source folder directory and Destination directory are the same."]) := by
        simp only [move_files_logic, abspath]
        rw [if_neg h1, if_neg h2, if_neg h3, if_neg h4, if_pos h5]
      rw [hstep]
      exact ⟨rfl, rfl⟩
    by_cases h6 : ((include_mods || include_plugins) && !(ahas fs source_dir)) = true
    · have hstep : (move_files_logic source_dir folder1_name folder2_name xml_source_dir
        xml_filename replacement_xml_path destination_dir include_mods
        include_plugins include_xml prompt fs) = (false, fs, ["Error: Source folder dir not found: " ++ source_dir]) := by
        simp only [move_files_logic, abspath]
        rw [if_neg h1, if_neg h2, if_neg h3, if_neg h4, if_neg h5, if_pos h6]
      rw [hstep]
      exact ⟨rfl, rfl⟩
    by_cases h7 : (include_mods && !(ahas fs (pjoin source_dir folder1_name))) = true
    · have hstep : (move_files_logic source_dir folder1_name folder2_name xml_source_dir
        xml_filename replacement_xml_path destination_dir include_mods
        include_plugins include_xml prompt fs) = (false, fs, ["Error: Folder 1 (mods) not found in Source: " ++ pjoin source_dir folder1_name]) := by
        simp only [move_files_logic, abspath]
        rw [if_neg h1, if_neg h2, if_neg h3, if_neg h4, if_neg h5, if_neg h6, if_pos h7]
      rw [hstep]
      exact ⟨rfl, rfl⟩
    by_cases h8 : (include_plugins && !(ahas fs (pjoin source_dir folder2_name))) = true
    · have hstep : (move_files_logic source_dir folder1_name folder2_name xml_source_dir
        xml_filename replacement_xml_path destination_dir include_mods
        include_plugins include_xml prompt fs) = (false, fs, ["Error: Folder 2 (plugins) not found in Source: " ++ pjoin source_dir folder2_name]) := by
        simp only [move_files_logic, abspath]
        rw [if_neg h1, if_neg h2, if_neg h3, if_neg h4, if_neg h5, if_neg h6, if_neg h7, if_pos h8]
      rw [hstep]
      exact ⟨rfl, rfl⟩
    · exfalso
      rw [moveValidationFails] at hv
      simp only [abspath, Bool.or_eq_true] at hv
      simp only [h1, h2, h3, h4, h5, h6, h7, h8, or_false, false_or] at hv
      simp at hv
  · intro hv
    have hstage : ∀ r : FS, r = revStageX xml_source_dir include_xml fs →
        r = fs ∨ r = aset fs xml_source_dir 0 := by
      intro r hr
      rw [hr]
      unfold revStageX
      split
      · right
        rfl
      · left
        rfl
    by_cases h1 : (include_xml && (xml_source_dir == destination_dir)) = true
    · have hstep : (revert_files_logic source_dir folder1_name folder2_name xml_source_dir
        xml_filename destination_dir include_mods include_plugins include_xml
        restore_xml_path fs) = (false, fs, ([] : List String)) := by
        simp only [revert_files_logic, abspath]
        rw [show (if (include_xml && !ahas fs xml_source_dir) = true then
          aset fs xml_source_dir 0 else fs)
          = revStageX xml_source_dir include_xml fs from rfl]
        rw [if_pos h1]
      rw [hstep]
      exact ⟨rfl, Or.inl rfl⟩
    by_cases h2 : (include_xml && !(ahas fs (restorePath destination_dir xml_filename restore_xml_path))) = true
    · have hstep : (revert_files_logic source_dir folder1_name folder2_name xml_source_dir
        xml_filename destination_dir include_mods include_plugins include_xml
        restore_xml_path fs) = (false, fs, ["Error: Backup XML file not found: " ++ restorePath destination_dir xml_filename restore_xml_path]) := by
        simp only [revert_files_logic, abspath]
        rw [show (if (include_xml && !ahas fs xml_source_dir) = true then
          aset fs xml_source_dir 0 else fs)
          = revStageX xml_source_dir include_xml fs from rfl]
        rw [if_neg h1, if_pos h2]
      rw [hstep]
      exact ⟨rfl, Or.inl rfl⟩
    by_cases h3 : (source_dir == destination_dir) = true
    · have hstep : (revert_files_logic source_dir folder1_name folder2_name xml_source_dir
        xml_filename destination_dir include_mods include_plugins include_xml
        restore_xml_path fs) = (false, revStageX xml_source_dir include_xml fs, ([] : List String)) := by
        simp only [revert_files_logic, abspath]
        rw [show (if (include_xml && !ahas fs xml_source_dir) = true then
          aset fs xml_source_dir 0 else fs)
          = revStageX xml_source_dir include_xml fs from rfl]
        rw [if_neg h1, if_neg h2, if_pos h3]
      rw [hstep]
      exact ⟨rfl, hstage _ rfl⟩
    by_cases h4 : (!(ahas (revStageX xml_source_dir include_xml fs) destination_dir)) = true
    · have hstep : (revert_files_logic source_dir folder1_name folder2_name xml_source_dir
        xml_filename destination_dir include_mods include_plugins include_xml
        restore_xml_path fs) = (false, revStageX xml_source_dir include_xml fs, ["Error: Destination dir not found: " ++ destination_dir]) := by
        simp only [revert_files_logic, abspath]
        rw [show (if (include_xml && !ahas fs xml_source_dir) = true then
          aset fs xml_source_dir 0 else fs)
          = revStageX xml_source_dir include_xml fs from rfl]
        rw [if_neg h1, if_neg h2, if_neg h3, if_pos h4]
      rw [hstep]
      exact ⟨rfl, hstage _ rfl⟩
    by_cases h5 : (include_mods && !(ahas (revStageX xml_source_dir include_xml fs) (pjoin destination_dir folder1_name))) = true
    · have hstep : (revert_files_logic source_dir folder1_name folder2_name xml_source_dir
        xml_filename destination_dir include_mods include_plugins include_xml
        restore_xml_path fs) = (false, revStageX xml_source_dir include_xml fs, ["Error: Folder 1 (mods) not found in Destination: " ++ pjoin destination_dir folder1_name]) := by
        simp only [revert_files_logic, abspath]
        rw [show (if (include_xml && !ahas fs xml_source_dir) = true then
          aset fs xml_source_dir 0 else fs)
          = revStageX xml_source_dir include_xml fs from rfl]
        rw [if_neg h1, if_neg h2, if_neg h3, if_neg h4, if_pos h5]
      rw [hstep]
      exact ⟨rfl, hstage _ rfl⟩
    by_cases h6 : (include_plugins && !(ahas (revStageX xml_source_dir include_xml fs) (pjoin destination_dir folder2_name))) = true
    · have hstep : (revert_files_logic source_dir folder1_name folder2_name xml_source_dir
        xml_filename destination_dir include_mods include_plugins include_xml
        restore_xml_path fs) = (false, revStageX xml_source_dir include_xml fs, ["Error: Folder 2 (plugins) not found in Destination: " ++ pjoin destination_dir folder2_name]) := by
        simp only [revert_files_logic, abspath]
        rw [show (if (include_xml && !ahas fs xml_source_dir) = true then
          aset fs xml_source_dir 0 else fs)
          = revStageX xml_source_dir include_xml fs from rfl]
        rw [if_neg h1, if_neg h2, if_neg h3, if_neg h4, if_neg h5, if_pos h6]
      rw [hstep]
      exact ⟨rfl, hstage _ rfl⟩
    · exfalso
      rw [revertValidationFails] at hv
      simp only [abspath, Bool.or_eq_true] at hv
      simp only [h1, h2, h3, h4, h5, h6, or_false, false_or] at hv
      simp at hv

/-- Claim C2 fails as stated on revert_files_logic: a SameDirectory
validation failure can still mutate the filesystem, because a missing xml
source directory is created before the source/destination check runs. -/
theorem C2_counterexample :
    revertValidationFails "/a" "mods" "plugins" "/x" "s.xml" "/a"
      false false true none [("/a", 0), ("/a/s.xml", 7)] = true ∧
    (revert_files_logic "/a" "mods" "plugins" "/x" "s.xml" "/a"
      false false true none [("/a", 0), ("/a/s.xml", 7)]).1 = false ∧
    (revert_files_logic "/a" "mods" "plugins" "/x" "s.xml" "/a"
      false false true none [("/a", 0), ("/a/s.xml", 7)]).2.1 ≠
      [("/a", 0), ("/a/s.xml", 7)] := by
  decide

theorem C2_witness :
    ((move_files_logic "/a" "mods" "plugins" "/x" "s.xml" "/r.xml" "/a"
        true false false none [("/a", 0)]).1 = false ∧
      (move_files_logic "/a" "mods" "plugins" "/x" "s.xml" "/r.xml" "/a"
        true false false none [("/a", 0)]).2.1 = [("/a", 0)]) ∧
    ((revert_files_logic "/a" "mods" "plugins" "/x" "s.xml" "/a"
        true false false none [("/a", 0)]).1 = false ∧
      ((revert_files_logic "/a" "mods" "plugins" "/x" "s.xml" "/a"
          true false false none [("/a", 0)]).2.1 = [("/a", 0)] ∨
        (revert_files_logic "/a" "mods" "plugins" "/x" "s.xml" "/a"
          true false false none [("/a", 0)]).2.1 =
          aset [("/a", 0)] (abspath "/x") 0)) :=
  ⟨(C2_validation_no_mutation "/a" "mods" "plugins" "/x" "s.xml" "/r.xml" "/a"
      true false false none none [("/a", 0)]).1 (by decide),
   (C2_validation_no_mutation "/a" "mods" "plugins" "/x" "s.xml" "/r.xml" "/a"
      true false false none none [("/a", 0)]).2 (by decide)⟩

/-- An optional move block that fails carries a nonempty log (it ends with
the logged raise message). -/
theorem step_error_log {verb warn src dst : String} {m : Bool} {fs : FS}
    {log : List String} {ok e : FS × List String}
    (h : (if m = true then moveEntry verb warn src dst fs log
          else Except.ok ok) = Except.error e) : e.2 ≠ [] := by
  cases m
  · rw [if_neg (by decide : ¬ ((false : Bool) = true))] at h
    simp at h
  · rw [if_pos rfl] at h
    simp only [moveEntry] at h
    rcases hl : alookup (if ahas fs dst then aerase fs dst else fs) src with _ | v
    · rw [hl] at h
      dsimp only [] at h
      simp only [Except.error.injEq] at h
      rw [← h]
      simp
    · rw [hl] at h
      dsimp only [] at h
      simp at h

/-- Case analysis on a boolean guard in an equation. -/
theorem ite_eq_cases {α : Type} {c : Bool} {a b r : α}
    (h : (if c = true then a else b) = r) :
    (c = true ∧ a = r) ∨ (c = false ∧ b = r) := by
  cases c
  · exact Or.inr ⟨rfl, by simpa using h⟩
  · exact Or.inl ⟨rfl, by simpa using h⟩

/-- Claim C5 (amended): the three core operations are total functions in the
model; Sanitize and ClearCache log at least one message on every run
(successes and failures alike), and a failing Restore logs at least one
message except on its two silent SameDirectory early returns. -/
theorem C5_failures_are_logged (source_dir folder1_name folder2_name
    xml_source_dir xml_filename replacement_xml_path destination_dir : String)
    (include_mods include_plugins include_xml : Bool)
    (prompt : Option (Option String)) (restore_xml_path : Option String)
    (fs : FS) (st : AppState) (now_str : String) (rmfail : String → Bool) :
    (∀ b : Bool, ∀ fs2 : FS, ∀ log2 : List String,
      move_files_logic source_dir folder1_name folder2_name xml_source_dir
        xml_filename replacement_xml_path destination_dir include_mods
        include_plugins include_xml prompt fs = (b, fs2, log2) → log2 ≠ []) ∧
    (∀ b : Bool, ∀ ts : Option String, ∀ fs2 : FS, ∀ st2 : AppState,
      ∀ log2 : List String,
      clear_cache_logic source_dir fs st now_str rmfail = (b, ts, fs2, st2, log2) →
      log2 ≠ []) ∧
    (∀ fs2 : FS, ∀ log2 : List String,
      revert_files_logic source_dir folder1_name folder2_name xml_source_dir
        xml_filename destination_dir include_mods include_plugins include_xml
        restore_xml_path fs = (false, fs2, log2) →
      log2 ≠ [] ∨ (include_xml = true ∧ xml_source_dir = destination_dir) ∨
        source_dir = destination_dir) := by
  refine ⟨?_, ?_, ?_⟩
  · intro b fs2 log2 hrun
    simp only [move_files_logic, abspath] at hrun
    rcases ite_eq_cases hrun with ⟨-, hrun⟩ | ⟨-, hrun⟩
    · simp only [Prod.mk.injEq] at hrun
      rw [← hrun.2.2]
      simp
    rcases ite_eq_cases hrun with ⟨-, hrun⟩ | ⟨-, hrun⟩
    · simp only [Prod.mk.injEq] at hrun
      rw [← hrun.2.2]
      simp
    rcases ite_eq_cases hrun with ⟨-, hrun⟩ | ⟨-, hrun⟩
    · simp only [Prod.mk.injEq] at hrun
      rw [← hrun.2.2]
      simp
    rcases ite_eq_cases hrun with ⟨-, hrun⟩ | ⟨-, hrun⟩
    · simp only [Prod.mk.injEq] at hrun
      rw [← hrun.2.2]
      simp
    rcases ite_eq_cases hrun with ⟨-, hrun⟩ | ⟨-, hrun⟩
    · simp only [Prod.mk.injEq] at hrun
      rw [← hrun.2.2]
      simp
    rcases ite_eq_cases hrun with ⟨-, hrun⟩ | ⟨-, hrun⟩
    · simp only [Prod.mk.injEq] at hrun
      rw [← hrun.2.2]
      simp
    rcases ite_eq_cases hrun with ⟨-, hrun⟩ | ⟨-, hrun⟩
    · simp only [Prod.mk.injEq] at hrun
      rw [← hrun.2.2]
      simp
    rcases ite_eq_cases hrun with ⟨-, hrun⟩ | ⟨-, hrun⟩
    · simp only [Prod.mk.injEq] at hrun
      rw [← hrun.2.2]
      simp
    rw [show (if (!ahas fs destination_dir) = true then aset fs destination_dir 0 else fs)
        = sanStage0 destination_dir fs from rfl] at hrun
    rw [show (if (!ahas fs destination_dir) = true then
        ["Destination directory does not exist. Creating: " ++ destination_dir] else [])
        = sanLog0 destination_dir fs from rfl] at hrun
    rcases hscrut1 : (if include_mods = true then
        moveEntry "Moving"
          ("Warning: " ++ pjoin destination_dir folder1_name ++ " already exists. Overwriting...")
          (pjoin source_dir folder1_name) (pjoin destination_dir folder1_name) (sanStage0 destination_dir fs) (sanLog0 destination_dir fs)
      else Except.ok (sanStage0 destination_dir fs, sanLog0 destination_dir fs)) with e1 | s1
    · rw [hscrut1] at hrun
      dsimp only [] at hrun
      simp only [Prod.mk.injEq] at hrun
      rw [← hrun.2.2]
      exact step_error_log hscrut1
    rw [hscrut1] at hrun
    dsimp only [] at hrun
    rcases hscrut2 : (if include_plugins = true then
        moveEntry "Moving"
          ("Warning: " ++ pjoin destination_dir folder2_name ++ " already exists. Overwriting...")
          (pjoin source_dir folder2_name) (pjoin destination_dir folder2_name) s1.1 s1.2
      else Except.ok s1) with e2 | s2
    · rw [hscrut2] at hrun
      dsimp only [] at hrun
      simp only [Prod.mk.injEq] at hrun
      rw [← hrun.2.2]
      exact step_error_log hscrut2
    rw [hscrut2] at hrun
    dsimp only [] at hrun
    rcases ite_eq_cases hrun with ⟨-, hrun⟩ | ⟨-, hrun⟩
    · rcases halk : alookup
          (if ahas s2.1 (pjoin destination_dir (labeledXmlFilename xml_filename (promptLabel prompt))) = true then aerase s2.1 (pjoin destination_dir (labeledXmlFilename xml_filename (promptLabel prompt))) else s2.1)
          (pjoin xml_source_dir xml_filename) with _ | v
      · rw [halk] at hrun
        dsimp only [] at hrun
        simp only [Prod.mk.injEq] at hrun
        rw [← hrun.2.2]
        simp
      · rw [halk] at hrun
        dsimp only [] at hrun
        rcases halk2 : alookup
            (aset (aerase
              (if ahas s2.1 (pjoin destination_dir (labeledXmlFilename xml_filename (promptLabel prompt))) = true then aerase s2.1 (pjoin destination_dir (labeledXmlFilename xml_filename (promptLabel prompt))) else s2.1)
              (pjoin xml_source_dir xml_filename)) (pjoin destination_dir (labeledXmlFilename xml_filename (promptLabel prompt))) v)
            replacement_xml_path with _ | w
        · rw [halk2] at hrun
          dsimp only [] at hrun
          simp only [Prod.mk.injEq] at hrun
          rw [← hrun.2.2]
          simp
        · rw [halk2] at hrun
          dsimp only [] at hrun
          simp only [Prod.mk.injEq] at hrun
          rw [← hrun.2.2]
          simp
    · simp only [Prod.mk.injEq] at hrun
      rw [← hrun.2.2]
      simp
  · intro b ts fs2 st2 log2 hrun
    simp only [clear_cache_logic] at hrun
    rcases ite_eq_cases hrun with ⟨-, hrun⟩ | ⟨-, hrun⟩ <;>
      (simp only [Prod.mk.injEq] at hrun
       rw [← hrun.2.2.2.2]
       simp)
  · intro fs2 log2 hrun
    simp only [revert_files_logic, abspath] at hrun
    rcases ite_eq_cases hrun with ⟨hc1, hrun⟩ | ⟨-, hrun⟩
    · exact Or.inr (Or.inl (by simpa using hc1))
    rcases ite_eq_cases hrun with ⟨-, hrun⟩ | ⟨-, hrun⟩
    · simp only [Prod.mk.injEq] at hrun
      rw [← hrun.2.2]
      simp
    rw [show (if (include_xml && !ahas fs xml_source_dir) = true then
        aset fs xml_source_dir 0 else fs) = revStageX xml_source_dir include_xml fs from rfl] at hrun
    rcases ite_eq_cases hrun with ⟨hc3, hrun⟩ | ⟨-, hrun⟩
    · exact Or.inr (Or.inr (by simpa using hc3))
    rcases ite_eq_cases hrun with ⟨-, hrun⟩ | ⟨-, hrun⟩
    · simp only [Prod.mk.injEq] at hrun
      rw [← hrun.2.2]
      simp
    rcases ite_eq_cases hrun with ⟨-, hrun⟩ | ⟨-, hrun⟩
    · simp only [Prod.mk.injEq] at hrun
      rw [← hrun.2.2]
      simp
    rcases ite_eq_cases hrun with ⟨-, hrun⟩ | ⟨-, hrun⟩
    · simp only [Prod.mk.injEq] at hrun
      rw [← hrun.2.2]
      simp
    rw [show (if ((include_mods || include_plugins) && !ahas (revStageX xml_source_dir include_xml fs) source_dir) = true then
        aset (revStageX xml_source_dir include_xml fs) source_dir 0 else revStageX xml_source_dir include_xml fs) = revStage0 source_dir xml_source_dir include_mods include_plugins
          include_xml fs from rfl] at hrun
    rcases hscrut1 : (if include_mods = true then
        moveEntry "Restoring"
          ("Warning: " ++ pjoin source_dir folder1_name ++ " already exists in Source. Overwriting...")
          (pjoin destination_dir folder1_name) (pjoin source_dir folder1_name) (revStage0 source_dir xml_source_dir include_mods include_plugins
          include_xml fs) []
      else Except.ok (revStage0 source_dir xml_source_dir include_mods include_plugins
          include_xml fs, [])) with e1 | s1
    · rw [hscrut1] at hrun
      dsimp only [] at hrun
      simp only [Prod.mk.injEq] at hrun
      rw [← hrun.2.2]
      exact Or.inl (step_error_log hscrut1)
    rw [hscrut1] at hrun
    dsimp only [] at hrun
    rcases hscrut2 : (if include_plugins = true then
        moveEntry "Restoring"
          ("Warning: " ++ pjoin source_dir folder2_name ++ " already exists in Source. Overwriting...")
          (pjoin destination_dir folder2_name) (pjoin source_dir folder2_name) s1.1 s1.2
      else Except.ok s1) with e2 | s2
    · rw [hscrut2] at hrun
      dsimp only [] at hrun
      simp only [Prod.mk.injEq] at hrun
      rw [← hrun.2.2]
      exact Or.inl (step_error_log hscrut2)
    rw [hscrut2] at hrun
    dsimp only [] at hrun
    rcases ite_eq_cases hrun with ⟨-, hrun⟩ | ⟨-, hrun⟩
    · rcases halk : alookup
          (if ahas s2.1 (pjoin xml_source_dir xml_filename) = true then aerase s2.1 (pjoin xml_source_dir xml_filename) else s2.1)
          (restorePath destination_dir xml_filename restore_xml_path) with _ | v
      · rw [halk] at hrun
        dsimp only [] at hrun
        simp only [Prod.mk.injEq] at hrun
        rw [← hrun.2.2]
        simp
      · rw [halk] at hrun
        dsimp only [] at hrun
        simp at hrun
    · simp at hrun

/-- Claim C5 fails as stated: revert_files_logic returns false on the
SameDirectory path at lines 235-236 without delivering any log message. -/
theorem C5_counterexample :
    (revert_files_logic "/a" "mods" "plugins" "/x" "s.xml" "/a"
      false false false none []).1 = false ∧
    (revert_files_logic "/a" "mods" "plugins" "/x" "s.xml" "/a"
      false false false none []).2.2 = [] := by
  decide

theorem C5_witness :
    (move_files_logic "/s" "mods" "plugins" "/x" "s.xml" "/r.xml" "/d"
      false false false none []).2.2 ≠ [] ∧
    ((revert_files_logic "/s" "mods" "plugins" "/x" "s.xml" "/d"
        false false false none []).2.2 ≠ [] ∨
      (false = true ∧ "/x" = "/d") ∨ "/s" = "/d") := by
  constructor
  · exact (C5_failures_are_logged "/s" "mods" "plugins" "/x" "s.xml" "/r.xml"
      "/d" false false false none none [] [] "TS" (fun _ => false)).1
      (move_files_logic "/s" "mods" "plugins" "/x" "s.xml" "/r.xml" "/d"
        false false false none []).1
      (move_files_logic "/s" "mods" "plugins" "/x" "s.xml" "/r.xml" "/d"
        false false false none []).2.1
      (move_files_logic "/s" "mods" "plugins" "/x" "s.xml" "/r.xml" "/d"
        false false false none []).2.2 rfl
  · exact (C5_failures_are_logged "/s" "mods" "plugins" "/x" "s.xml" "/r.xml"
      "/d" false false false none none [] [] "TS" (fun _ => false)).2.2
      (revert_files_logic "/s" "mods" "plugins" "/x" "s.xml" "/d"
        false false false none []).2.1
      (revert_files_logic "/s" "mods" "plugins" "/x" "s.xml" "/d"
        false false false none []).2.2 (by decide)

/-! ## The Sanitize/Restore round trip (claim C1) -/

theorem ahas_eq_false_of_alookup_none {α : Type} {l : List (String × α)}
    {p : String} (h : alookup l p = none) : ahas l p = false := by
  simp [ahas, h]

theorem alookup_revertEffect_some_of_ne {q backup source_dir folder1_name
    folder2_name xml_source_dir xml_filename destination_dir : String}
    {include_mods include_plugins include_xml : Bool} {l : FS}
    (hqxs : q ≠ pjoin xml_source_dir xml_filename)
    (hqL : q ≠ backup) :
    alookup (revertEffect source_dir folder1_name folder2_name xml_source_dir
      xml_filename destination_dir include_mods include_plugins include_xml
      (some backup) l) q
      = alookup (revStage2 source_dir folder1_name folder2_name xml_source_dir
        destination_dir include_mods include_plugins include_xml l) q := by
  simp only [revertEffect, restorePath]
  split
  · rw [alookup_aset_of_ne _ _ hqxs, alookup_aerase_of_ne _ hqL]
  · rfl

theorem ahas_revertEffect_some_of_ne {q backup source_dir folder1_name
    folder2_name xml_source_dir xml_filename destination_dir : String}
    {include_mods include_plugins include_xml : Bool} {l : FS}
    (hqxs : q ≠ pjoin xml_source_dir xml_filename)
    (hqL : q ≠ backup) :
    ahas (revertEffect source_dir folder1_name folder2_name xml_source_dir
      xml_filename destination_dir include_mods include_plugins include_xml
      (some backup) l) q
      = ahas (revStage2 source_dir folder1_name folder2_name xml_source_dir
        destination_dir include_mods include_plugins include_xml l) q := by
  simp only [revertEffect, restorePath]
  split
  · rw [ahas_aset_of_ne _ _ hqxs, ahas_aerase_of_ne _ hqL]
  · rfl

theorem ahas_revStage1_self1 {source_dir folder1_name xml_source_dir
    destination_dir : String} {include_plugins include_xml : Bool} {l : FS} :
    ahas (revStage1 source_dir folder1_name xml_source_dir destination_dir
      true include_plugins include_xml l) (pjoin source_dir folder1_name)
      = true := by
  simp only [revStage1]
  rw [if_pos trivial]
  exact ahas_aset_self _ _ _

theorem ahas_revStage2_self1 {source_dir folder1_name folder2_name
    xml_source_dir destination_dir : String}
    {include_plugins include_xml : Bool} {l : FS}
    (h12 : pjoin source_dir folder1_name ≠ pjoin source_dir folder2_name)
    (h1d2 : pjoin source_dir folder1_name ≠ pjoin destination_dir folder2_name) :
    ahas (revStage2 source_dir folder1_name folder2_name xml_source_dir
      destination_dir true include_plugins include_xml l)
      (pjoin source_dir folder1_name) = true := by
  simp only [revStage2]
  split
  · rw [ahas_aset_of_ne _ _ h12, ahas_aerase_of_ne _ h1d2]
    exact ahas_revStage1_self1
  · exact ahas_revStage1_self1

theorem alookup_revStage1_dest1_none {source_dir folder1_name xml_source_dir
    destination_dir : String} {include_plugins include_xml : Bool} {l : FS}
    (hd1s1 : pjoin destination_dir folder1_name ≠ pjoin source_dir folder1_name) :
    alookup (revStage1 source_dir folder1_name xml_source_dir destination_dir
      true include_plugins include_xml l) (pjoin destination_dir folder1_name)
      = none := by
  simp only [revStage1]
  rw [if_pos trivial, alookup_aset_of_ne _ _ hd1s1]
  exact alookup_aerase_self _ _

theorem alookup_revStage2_dest1_none {source_dir folder1_name folder2_name
    xml_source_dir destination_dir : String}
    {include_plugins include_xml : Bool} {l : FS}
    (hd1s2 : pjoin destination_dir folder1_name ≠ pjoin source_dir folder2_name)
    (hd1d2 : pjoin destination_dir folder1_name
      ≠ pjoin destination_dir folder2_name)
    (hd1s1 : pjoin destination_dir folder1_name ≠ pjoin source_dir folder1_name) :
    alookup (revStage2 source_dir folder1_name folder2_name xml_source_dir
      destination_dir true include_plugins include_xml l)
      (pjoin destination_dir folder1_name) = none := by
  simp only [revStage2]
  split
  · rw [alookup_aset_of_ne _ _ hd1s2, alookup_aerase_of_ne _ hd1d2]
    exact alookup_revStage1_dest1_none hd1s1
  · exact alookup_revStage1_dest1_none hd1s1

theorem ahas_revStage2_self2 {source_dir folder1_name folder2_name
    xml_source_dir destination_dir : String}
    {include_mods include_xml : Bool} {l : FS} :
    ahas (revStage2 source_dir folder1_name folder2_name xml_source_dir
      destination_dir include_mods true include_xml l)
      (pjoin source_dir folder2_name) = true := by
  simp only [revStage2]
  rw [if_pos trivial]
  exact ahas_aset_self _ _ _

theorem alookup_revStage2_dest2_none {source_dir folder1_name folder2_name
    xml_source_dir destination_dir : String}
    {include_mods include_xml : Bool} {l : FS}
    (hd2s2 : pjoin destination_dir folder2_name ≠ pjoin source_dir folder2_name) :
    alookup (revStage2 source_dir folder1_name folder2_name xml_source_dir
      destination_dir include_mods true include_xml l)
      (pjoin destination_dir folder2_name) = none := by
  simp only [revStage2]
  rw [if_pos trivial, alookup_aset_of_ne _ _ hd2s2]
  exact alookup_aerase_self _ _

/-- Claim C1: a successful Sanitize followed by a successful Restore over the
same roots, with the restore xml path set to exactly the labelled backup file
Sanitize produced, leaves every included managed folder present at the source
root and absent from the destination root, and the settings file back at its
original location with its original content.  The managed paths involved are
assumed pairwise distinct (disjoint managed trees). -/
theorem C1_round_trip (source_dir folder1_name folder2_name xml_source_dir
    xml_filename replacement_xml_path destination_dir : String)
    (include_mods include_plugins include_xml : Bool)
    (prompt : Option (Option String)) (fs0 fs1 fsF : FS)
    (log1 log2 : List String)
    (hrun1 : move_files_logic source_dir folder1_name folder2_name
      xml_source_dir xml_filename replacement_xml_path destination_dir
      include_mods include_plugins include_xml prompt fs0 = (true, fs1, log1))
    (hrun2 : revert_files_logic source_dir folder1_name folder2_name
      xml_source_dir xml_filename destination_dir include_mods include_plugins
      include_xml (some (pjoin destination_dir (labeledXmlFilename xml_filename
        (promptLabel prompt)))) fs1 = (true, fsF, log2))
    (h_s1_s2 : pjoin source_dir folder1_name ≠ pjoin source_dir folder2_name)
    (h_s1_d2 : pjoin source_dir folder1_name ≠ pjoin destination_dir folder2_name)
    (h_d1_s1 : pjoin destination_dir folder1_name ≠ pjoin source_dir folder1_name)
    (h_d1_s2 : pjoin destination_dir folder1_name ≠ pjoin source_dir folder2_name)
    (h_d1_d2 : pjoin destination_dir folder1_name
      ≠ pjoin destination_dir folder2_name)
    (h_d2_s2 : pjoin destination_dir folder2_name ≠ pjoin source_dir folder2_name)
    (h_xs_s1 : pjoin xml_source_dir xml_filename ≠ pjoin source_dir folder1_name)
    (h_xs_d1 : pjoin xml_source_dir xml_filename
      ≠ pjoin destination_dir folder1_name)
    (h_xs_s2 : pjoin xml_source_dir xml_filename ≠ pjoin source_dir folder2_name)
    (h_xs_d2 : pjoin xml_source_dir xml_filename
      ≠ pjoin destination_dir folder2_name)
    (h_xs_D : pjoin xml_source_dir xml_filename ≠ destination_dir)
    (h_L_xs : pjoin destination_dir (labeledXmlFilename xml_filename
      (promptLabel prompt)) ≠ pjoin xml_source_dir xml_filename)
    (h_L_s1 : pjoin destination_dir (labeledXmlFilename xml_filename
      (promptLabel prompt)) ≠ pjoin source_dir folder1_name)
    (h_L_d1 : pjoin destination_dir (labeledXmlFilename xml_filename
      (promptLabel prompt)) ≠ pjoin destination_dir folder1_name)
    (h_L_s2 : pjoin destination_dir (labeledXmlFilename xml_filename
      (promptLabel prompt)) ≠ pjoin source_dir folder2_name)
    (h_L_d2 : pjoin destination_dir (labeledXmlFilename xml_filename
      (promptLabel prompt)) ≠ pjoin destination_dir folder2_name)
    (h_L_X : pjoin destination_dir (labeledXmlFilename xml_filename
      (promptLabel prompt)) ≠ xml_source_dir)
    (h_L_S : pjoin destination_dir (labeledXmlFilename xml_filename
      (promptLabel prompt)) ≠ source_dir) :
    (include_mods = true →
      ahas fsF (pjoin source_dir folder1_name) = true ∧
      ahas fsF (pjoin destination_dir folder1_name) = false) ∧
    (include_plugins = true →
      ahas fsF (pjoin source_dir folder2_name) = true ∧
      ahas fsF (pjoin destination_dir folder2_name) = false) ∧
    (include_xml = true →
      alookup fsF (pjoin xml_source_dir xml_filename)
        = alookup fs0 (pjoin xml_source_dir xml_filename) ∧
      ahas fsF (pjoin xml_source_dir xml_filename) = true) := by
  obtain ⟨hfs1, -, hxmlpre, -, -, -⟩ := sanitize_success_char source_dir
    folder1_name folder2_name xml_source_dir xml_filename replacement_xml_path
    destination_dir include_mods include_plugins include_xml prompt fs0 fs1
    log1 hrun1
  obtain ⟨hfsF, -, -, -, -⟩ := revert_success_char source_dir folder1_name
    folder2_name xml_source_dir xml_filename destination_dir include_mods
    include_plugins include_xml
    (some (pjoin destination_dir (labeledXmlFilename xml_filename
      (promptLabel prompt)))) fs1 fsF log2 hrun2
  subst hfs1
  subst hfsF
  refine ⟨?_, ?_, ?_⟩
  · intro hm
    subst hm
    constructor
    · rw [ahas_revertEffect_some_of_ne (Ne.symm h_xs_s1) (Ne.symm h_L_s1)]
      exact ahas_revStage2_self1 h_s1_s2 h_s1_d2
    · apply ahas_eq_false_of_alookup_none
      rw [alookup_revertEffect_some_of_ne (Ne.symm h_xs_d1) (Ne.symm h_L_d1)]
      exact alookup_revStage2_dest1_none h_d1_s2 h_d1_d2 h_d1_s1
  · intro hp
    subst hp
    constructor
    · rw [ahas_revertEffect_some_of_ne (Ne.symm h_xs_s2) (Ne.symm h_L_s2)]
      exact ahas_revStage2_self2
    · apply ahas_eq_false_of_alookup_none
      rw [alookup_revertEffect_some_of_ne (Ne.symm h_xs_d2) (Ne.symm h_L_d2)]
      exact alookup_revStage2_dest2_none h_d2_s2
  · intro hx
    subst hx
    obtain ⟨-, -, hxsex, -⟩ := hxmlpre rfl
    obtain ⟨v, hv⟩ := Option.isSome_iff_exists.mp hxsex
    have hS2xs : alookup (sanStage2 source_dir folder1_name folder2_name
        destination_dir include_mods include_plugins fs0)
        (pjoin xml_source_dir xml_filename) = some v := by
      rw [alookup_sanStage2_of_ne source_dir folder1_name folder2_name
        destination_dir include_mods include_plugins fs0 h_xs_D h_xs_s1
        h_xs_d1 h_xs_s2 h_xs_d2]
      exact hv
    have hEL : alookup (sanitizeEffect source_dir folder1_name folder2_name
        xml_source_dir xml_filename replacement_xml_path destination_dir
        include_mods include_plugins true (promptLabel prompt) fs0)
        (pjoin destination_dir (labeledXmlFilename xml_filename
          (promptLabel prompt))) = some v := by
      simp only [sanitizeEffect, eq_self_iff_true, if_true]
      rw [alookup_aset_of_ne _ _ h_L_xs, alookup_aset_self,
        aget_eq_of_alookup hS2xs]
    have hRevL : alookup (revStage2 source_dir folder1_name folder2_name
        xml_source_dir destination_dir include_mods include_plugins true
        (sanitizeEffect source_dir folder1_name folder2_name xml_source_dir
          xml_filename replacement_xml_path destination_dir include_mods
          include_plugins true (promptLabel prompt) fs0))
        (pjoin destination_dir (labeledXmlFilename xml_filename
          (promptLabel prompt))) = some v := by
      rw [alookup_revStage2_of_ne source_dir folder1_name folder2_name
        xml_source_dir destination_dir include_mods include_plugins true
        (sanitizeEffect source_dir folder1_name folder2_name xml_source_dir
          xml_filename replacement_xml_path destination_dir include_mods
          include_plugins true (promptLabel prompt) fs0)
        h_L_X h_L_S h_L_d1 h_L_s1 h_L_d2 h_L_s2]
      exact hEL
    constructor
    · simp only [revertEffect, restorePath, eq_self_iff_true, if_true]
      rw [alookup_aset_self, aget_eq_of_alookup hRevL, hv]
    · simp only [revertEffect, restorePath, eq_self_iff_true, if_true]
      exact ahas_aset_self _ _ _

theorem C1_witness :
    alookup (revert_files_logic "/s" "mods" "plugins" "/x" "settings.xml" "/d"
        true true true
        (some (pjoin "/d" (labeledXmlFilename "settings.xml"
          (promptLabel (some (some "My Backup!!"))))))
        (move_files_logic "/s" "mods" "plugins" "/x" "settings.xml"
          "/r/new.xml" "/d" true true true (some (some "My Backup!!"))
          [("/s", 0), ("/x", 0), ("/s/mods", 1), ("/s/plugins", 2),
           ("/x/settings.xml", 3), ("/r/new.xml", 4)]).2.1).2.1
      (pjoin "/x" "settings.xml")
      = alookup [("/s", 0), ("/x", 0), ("/s/mods", 1), ("/s/plugins", 2),
         ("/x/settings.xml", 3), ("/r/new.xml", 4)]
        (pjoin "/x" "settings.xml") :=
  ((C1_round_trip "/s" "mods" "plugins" "/x" "settings.xml" "/r/new.xml" "/d"
    true true true (some (some "My Backup!!"))
    [("/s", 0), ("/x", 0), ("/s/mods", 1), ("/s/plugins", 2),
     ("/x/settings.xml", 3), ("/r/new.xml", 4)]
    (move_files_logic "/s" "mods" "plugins" "/x" "settings.xml" "/r/new.xml"
      "/d" true true true (some (some "My Backup!!"))
      [("/s", 0), ("/x", 0), ("/s/mods", 1), ("/s/plugins", 2),
       ("/x/settings.xml", 3), ("/r/new.xml", 4)]).2.1
    (revert_files_logic "/s" "mods" "plugins" "/x" "settings.xml" "/d"
      true true true
      (some (pjoin "/d" (labeledXmlFilename "settings.xml"
        (promptLabel (some (some "My Backup!!"))))))
      (move_files_logic "/s" "mods" "plugins" "/x" "settings.xml" "/r/new.xml"
        "/d" true true true (some (some "My Backup!!"))
        [("/s", 0), ("/x", 0), ("/s/mods", 1), ("/s/plugins", 2),
         ("/x/settings.xml", 3), ("/r/new.xml", 4)]).2.1).2.1
    (move_files_logic "/s" "mods" "plugins" "/x" "settings.xml" "/r/new.xml"
      "/d" true true true (some (some "My Backup!!"))
      [("/s", 0), ("/x", 0), ("/s/mods", 1), ("/s/plugins", 2),
       ("/x/settings.xml", 3), ("/r/new.xml", 4)]).2.2
    (revert_files_logic "/s" "mods" "plugins" "/x" "settings.xml" "/d"
      true true true
      (some (pjoin "/d" (labeledXmlFilename "settings.xml"
        (promptLabel (some (some "My Backup!!"))))))
      (move_files_logic "/s" "mods" "plugins" "/x" "settings.xml" "/r/new.xml"
        "/d" true true true (some (some "My Backup!!"))
        [("/s", 0), ("/x", 0), ("/s/mods", 1), ("/s/plugins", 2),
         ("/x/settings.xml", 3), ("/r/new.xml", 4)]).2.1).2.2
    (by decide) (by decide)
    (by decide) (by decide) (by decide) (by decide) (by decide) (by decide)
    (by decide) (by decide) (by decide) (by decide) (by decide) (by decide)
    (by decide) (by decide) (by decide) (by decide) (by decide)
    (by decide)).2.2 rfl).1

/-! ## Profiles (src/profiles.py) -/

/-- tempfile.gettempdir() at logic.py line 12, fixed to the canonical posix
temp directory for the model. -/
def TEMP_DIR : String := "/tmp"

/-- STATE_DIR (logic.py line 13). -/
def STATE_DIR : String := pjoin TEMP_DIR "SanitizeV"

/-- PROFILES_DIR (profiles.py line 14). -/
def PROFILES_DIR : String := pjoin STATE_DIR "profiles"

/-- The config payload stored inside a profile (profiles.py lines 58-64). -/
structure ProfileConfig where
  mods_enabled : Bool
  plugins_enabled : Bool
  source_dir : String
  dest_dir : String
deriving DecidableEq

/-- The parsed content of a <id>.json snapshot (profiles.py lines 74-80). -/
structure ProfileData where
  id : String
  name : String
  description : String
  created : String
  config : ProfileConfig
deriving DecidableEq

/-- One element of the "profiles" list of the index file (profiles.py
lines 89-94). -/
structure ProfileIndexEntry where
  id : String
  name : String
  description : String
  created : String
deriving DecidableEq

/-- The persistent state touched by the profile module: the snapshot files
under PROFILES_DIR and the parsed index list. -/
structure ProfilesState where
  files : List (String × ProfileData)
  index : List ProfileIndexEntry
deriving DecidableEq

/-- save_profile (profiles.py lines 51-100).  The two strftime calls are the
now_id (\"%Y%m%d_%H%M%S\") and now_created (\"%Y-%m-%d %H:%M:%S\") arguments.
open(profile_file, 'w') overwrites whatever snapshot is already there, the
index entry is appended unconditionally, and the function returns a success
boolean, not the id. -/
def save_profile (name description : String) (config : ProfileConfig)
    (now_id now_created : String) (st : ProfilesState) :
    Bool × ProfilesState :=
  let profile_file := pjoin PROFILES_DIR (now_id ++ ".json")
  let profile_data : ProfileData :=
    ⟨now_id, name, description, now_created, config⟩
  (true,
    { files := aset st.files profile_file profile_data,
      index := st.index ++ [⟨now_id, name, description, now_created⟩] })

/-- load_profile (profiles.py lines 103-112). -/
def load_profile (profile_id : String) (st : ProfilesState) :
    Option ProfileData :=
  alookup st.files (pjoin PROFILES_DIR (profile_id ++ ".json"))

/-- delete_profile (profiles.py lines 115-131). -/
def delete_profile (profile_id : String) (st : ProfilesState) :
    Bool × ProfilesState :=
  (true,
    { files := aerase st.files (pjoin PROFILES_DIR (profile_id ++ ".json")),
      index := st.index.filter fun p => !(p.id == profile_id) })

/-- Claim C7 fails on the code: the profile id is the wall-clock time at
second granularity, so two Save calls in the same second generate the same
id; the second call overwrites the first call's snapshot file and appends a
colliding id to the index (and save_profile returns a boolean, never the
id). -/
theorem C7_counterexample :
    (alookup (save_profile "second" "d2" ⟨true, true, "/s", "/d"⟩
        "20251012_120000" "2025-10-12 12:00:00"
        ((save_profile "first" "d1" ⟨true, false, "/s", "/d"⟩
          "20251012_120000" "2025-10-12 12:00:00" ⟨[], []⟩).2)).2.files
        (pjoin PROFILES_DIR ("20251012_120000" ++ ".json"))
      = some ⟨"20251012_120000", "second", "d2", "2025-10-12 12:00:00",
          ⟨true, true, "/s", "/d"⟩⟩) ∧
    ((save_profile "second" "d2" ⟨true, true, "/s", "/d"⟩
        "20251012_120000" "2025-10-12 12:00:00"
        ((save_profile "first" "d1" ⟨true, false, "/s", "/d"⟩
          "20251012_120000" "2025-10-12 12:00:00" ⟨[], []⟩).2)).2.index.map
        ProfileIndexEntry.id
      = ["20251012_120000", "20251012_120000"]) ∧
    ¬ ((save_profile "second" "d2" ⟨true, true, "/s", "/d"⟩
        "20251012_120000" "2025-10-12 12:00:00"
        ((save_profile "first" "d1" ⟨true, false, "/s", "/d"⟩
          "20251012_120000" "2025-10-12 12:00:00" ⟨[], []⟩).2)).2.index.map
        ProfileIndexEntry.id).Nodup := by
  refine ⟨rfl, rfl, ?_⟩
  decide

/-- Claim C7 (amended): when the generated id is fresh — not yet among the
index ids and with no snapshot file of that name — save_profile reports
success, writes the snapshot under PROFILES_DIR, appends exactly the
{id, name, description, created} entry to the end of the index, leaves every
other snapshot file untouched, and keeps the index ids duplicate-free; id
uniqueness holds only under that freshness assumption, which wall-clock
seconds do not guarantee, and the caller gets a boolean rather than the new
id. -/
theorem C7_save_profile_fresh (name description : String)
    (config : ProfileConfig) (now_id now_created : String)
    (st : ProfilesState)
    (hfresh : now_id ∉ st.index.map ProfileIndexEntry.id)
    (hnodup : (st.index.map ProfileIndexEntry.id).Nodup) :
    (save_profile name description config now_id now_created st).1 = true ∧
    alookup (save_profile name description config now_id now_created
        st).2.files (pjoin PROFILES_DIR (now_id ++ ".json"))
      = some ⟨now_id, name, description, now_created, config⟩ ∧
    (save_profile name description config now_id now_created st).2.index
      = st.index ++ [⟨now_id, name, description, now_created⟩] ∧
    (∀ q, q ≠ pjoin PROFILES_DIR (now_id ++ ".json") →
      alookup (save_profile name description config now_id now_created
        st).2.files q = alookup st.files q) ∧
    (((save_profile name description config now_id now_created
        st).2.index.map ProfileIndexEntry.id).Nodup) := by
  refine ⟨rfl, ?_, rfl, ?_, ?_⟩
  · exact alookup_aset_self _ _ _
  · intro q hq
    exact alookup_aset_of_ne _ _ hq
  · simp only [save_profile, List.map_append, List.map_cons, List.map_nil]
    rw [List.nodup_append]
    refine ⟨hnodup, List.nodup_singleton _, ?_⟩
    intro a ha hb
    simp only [List.mem_singleton] at hb
    subst hb
    exact hfresh ha

theorem C7_witness :
    alookup (save_profile "first" "d1" ⟨true, false, "/s", "/d"⟩
        "20251012_120000" "2025-10-12 12:00:00" ⟨[], []⟩).2.files
        (pjoin PROFILES_DIR ("20251012_120000" ++ ".json"))
      = some ⟨"20251012_120000", "first", "d1", "2025-10-12 12:00:00",
          ⟨true, false, "/s", "/d"⟩⟩ :=
  (C7_save_profile_fresh "first" "d1" ⟨true, false, "/s", "/d"⟩
    "20251012_120000" "2025-10-12 12:00:00" ⟨[], []⟩
    (by decide) (by decide)).2.1
